import Mathlib

/-!
Shallow embedding of the serde-derived serialization layer of
kube-resource-extra's Istio resource types (DestinationRule, Gateway,
VirtualService), faithful to the Rust source: field-by-field struct
codecs with `#[serde(rename = ...)]`, `#[skip_serializing_none]` only on
the structs that carry that attribute, externally tagged enums for the
derived `enum` types, and `std::time::Duration`'s `{secs, nanos}` wire
struct.  JSON documents are modeled as a tree; floating-point numbers
(the `f32` payload of `Percent`) are modeled opaquely by their bit
pattern: a finite f32 survives the f32 -> JSON -> f32 trip losslessly,
while serde_json's formatter writes a non-finite float (NaN or an
infinity) as `null`, which the encoder models explicitly.
-/

/-- An opaque 32-bit float value, identified by its bit pattern. -/
structure F32 where
  bits : Nat
deriving DecidableEq

/-- An f32 is non-finite (an infinity or a NaN) exactly when its eight
exponent bits — bits 23 through 30 of the pattern — are all ones. -/
def F32.isFinite (x : F32) : Bool := (x.bits / 8388608) % 256 != 255

/-- JSON wire values. Object member order is the emission order. -/
inductive Json where
  | null
  | bool (b : Bool)
  | num (n : Int)
  | fnum (x : F32)
  | str (s : String)
  | arr (elems : List Json)
  | obj (members : List (String × Json))

/-- Decode errors, following the error taxonomy the specification names.
The serde-derived decoders in the source only ever produce the first
four kinds; the remaining constructors exist so that statements about
the specification's expected errors can be expressed. -/
inductive DecodeError where
  | typeMismatch (expected : String)
  | missingField (field : String)
  | unknownVariant (enumName : String) (tag : String)
  | ambiguousVariant (unionName : String)
  | noMatchingVariant (unionName : String)
  | invalidDuration (raw : String)
  | duplicateKey (mapName : String) (key : String)
deriving DecidableEq

abbrev Dec (α : Type) := Except DecodeError α

@[simp] theorem except_bind_ok {ε α β : Type} (a : α) (f : α → Except ε β) :
    (Except.ok a : Except ε α) >>= f = f a := rfl

@[simp] theorem except_bind_error {ε α β : Type} (e : ε) (f : α → Except ε β) :
    (Except.error e : Except ε α) >>= f = Except.error e := rfl

@[simp] theorem except_map_ok {ε α β : Type} (f : α → β) (a : α) :
    Except.map f (Except.ok a : Except ε α) = Except.ok (f a) := rfl

@[simp] theorem except_pure_eq_ok {ε α : Type} (a : α) :
    (pure a : Except ε α) = Except.ok a := rfl

/-- Keys of a JSON object (empty for non-objects). -/
def Json.keys : Json → List String
  | .obj kvs => kvs.map Prod.fst
  | _ => []

/-- First value bound to a key in a JSON object, if any. -/
def Json.lookupKey (k : String) : Json → Option Json
  | .obj kvs => kvs.lookup k
  | _ => none

/-- Encoding of an `Option` field in a struct WITHOUT
`#[skip_serializing_none]`: serde emits `null` for `None`. -/
def encodeOpt (f : α → Json) : Option α → Json
  | none => .null
  | some a => f a

/-- Field list contribution of an `Option` field in a struct WITH
`#[skip_serializing_none]`: the pair is omitted for `None`. -/
def skipField (k : String) (f : α → Json) : Option α → List (String × Json)
  | none => []
  | some a => [(k, f a)]

/-- serde's handling of an optional field's looked-up value: a missing
key and an explicit `null` both decode to `none`. -/
def decodeOptVal (g : Json → Dec α) : Option Json → Dec (Option α)
  | none => .ok none
  | some .null => .ok none
  | some j => (g j).map some

/-- serde's handling of a required field's looked-up value. -/
def decodeReqVal (k : String) (g : Json → Dec α) : Option Json → Dec α
  | none => .error (.missingField k)
  | some j => g j

def optField (kvs : List (String × Json)) (k : String) (g : Json → Dec α) : Dec (Option α) :=
  decodeOptVal g (kvs.lookup k)

def reqField (kvs : List (String × Json)) (k : String) (g : Json → Dec α) : Dec α :=
  decodeReqVal k g (kvs.lookup k)

/-! Scalar codecs. -/

def encodeString (s : String) : Json := .str s

def decodeString : Json → Dec String
  | .str s => .ok s
  | _ => .error (.typeMismatch "string")

def encodeBool (b : Bool) : Json := .bool b

def decodeBool : Json → Dec Bool
  | .bool b => .ok b
  | _ => .error (.typeMismatch "bool")

/-- Signed integers (`i32`) ride on JSON numbers. -/
def encodeInt (n : Int) : Json := .num n

def decodeInt : Json → Dec Int
  | .num n => .ok n
  | _ => .error (.typeMismatch "integer")

/-- Unsigned integers (`u32`/`u64`) ride on JSON numbers; decode rejects
negative wire values as serde does. -/
def encodeNat (n : Nat) : Json := .num (Int.ofNat n)

def decodeNat : Json → Dec Nat
  | .num n => if 0 ≤ n then .ok n.toNat else .error (.typeMismatch "unsigned integer")
  | _ => .error (.typeMismatch "unsigned integer")

/-- The Rust unit type `()` serializes to `null`. -/
def encodeUnit : Unit → Json
  | () => .null

/-- serde_json's formatter emits a JSON number for a finite float but
writes `null` for NaN and the infinities. -/
def encodeF32 (x : F32) : Json := if x.isFinite then .fnum x else .null

def decodeF32 : Json → Dec F32
  | .fnum x => .ok x
  | _ => .error (.typeMismatch "float")

/-- Lists (`Vec<T>`) ride on JSON arrays. -/
def encodeList (f : α → Json) (xs : List α) : Json := .arr (xs.map f)

def decodeElems (g : Json → Dec α) : List Json → Dec (List α)
  | [] => .ok []
  | j :: js => do
      let a ← g j
      let as ← decodeElems g js
      pure (a :: as)

def decodeList (g : Json → Dec α) : Json → Dec (List α)
  | .arr js => decodeElems g js
  | _ => .error (.typeMismatch "array")

/-- `HashMap<String, T>` is modeled as an association list; it rides on
a JSON object whose members are the map entries. -/
def encodeStrMap (f : α → Json) (m : List (String × α)) : Json :=
  .obj (m.map fun kv => (kv.1, f kv.2))

def decodeStrMapEntries (g : Json → Dec α) : List (String × Json) → Dec (List (String × α))
  | [] => .ok []
  | (k, j) :: kvs => do
      let a ← g j
      let rest ← decodeStrMapEntries g kvs
      pure ((k, a) :: rest)

def decodeStrMap (g : Json → Dec α) : Json → Dec (List (String × α))
  | .obj kvs => decodeStrMapEntries g kvs
  | _ => .error (.typeMismatch "map")

/-! Round-trip helper lemmas for the combinators. -/

theorem decodeOptVal_encodeOpt {g : Json → Dec α} {f : α → Json}
    (hg : ∀ a, g (f a) = .ok a) (hne : ∀ a, f a ≠ .null) (v : Option α) :
    decodeOptVal g (some (encodeOpt f v)) = .ok v := by
  cases v with
  | none => rfl
  | some a =>
    have hga := hg a
    have h := hne a
    simp only [encodeOpt]
    cases hv : f a with
    | null => exact absurd hv h
    | bool b => rw [hv] at hga; simp [decodeOptVal, hga]
    | num n => rw [hv] at hga; simp [decodeOptVal, hga]
    | fnum x => rw [hv] at hga; simp [decodeOptVal, hga]
    | str s => rw [hv] at hga; simp [decodeOptVal, hga]
    | arr es => rw [hv] at hga; simp [decodeOptVal, hga]
    | obj ms => rw [hv] at hga; simp [decodeOptVal, hga]

theorem decodeOptVal_skip {g : Json → Dec α} {f : α → Json}
    (hg : ∀ a, g (f a) = .ok a) (hne : ∀ a, f a ≠ .null) (v : Option α) :
    decodeOptVal g (Option.map f v) = .ok v := by
  cases v with
  | none => rfl
  | some a =>
    have hga := hg a
    have h := hne a
    simp only [Option.map]
    cases hv : f a with
    | null => exact absurd hv h
    | bool b => rw [hv] at hga; simp [decodeOptVal, hga]
    | num n => rw [hv] at hga; simp [decodeOptVal, hga]
    | fnum x => rw [hv] at hga; simp [decodeOptVal, hga]
    | str s => rw [hv] at hga; simp [decodeOptVal, hga]
    | arr es => rw [hv] at hga; simp [decodeOptVal, hga]
    | obj ms => rw [hv] at hga; simp [decodeOptVal, hga]

theorem decodeElems_map {g : Json → Dec α} {f : α → Json}
    (hg : ∀ a, g (f a) = .ok a) (xs : List α) :
    decodeElems g (xs.map f) = .ok xs := by
  induction xs with
  | nil => rfl
  | cons a as ih => simp [decodeElems, hg, ih]

theorem decodeList_encodeList {g : Json → Dec α} {f : α → Json}
    (hg : ∀ a, g (f a) = .ok a) (xs : List α) :
    decodeList g (encodeList f xs) = .ok xs := by
  simp [encodeList, decodeList, decodeElems_map hg]

theorem decodeStrMapEntries_map {g : Json → Dec α} {f : α → Json}
    (hg : ∀ a, g (f a) = .ok a) (m : List (String × α)) :
    decodeStrMapEntries g (m.map fun kv => (kv.1, f kv.2)) = .ok m := by
  induction m with
  | nil => rfl
  | cons kv rest ih => simp [decodeStrMapEntries, hg, ih]

theorem decodeStrMap_encodeStrMap {g : Json → Dec α} {f : α → Json}
    (hg : ∀ a, g (f a) = .ok a) (m : List (String × α)) :
    decodeStrMap g (encodeStrMap f m) = .ok m := by
  simp [encodeStrMap, decodeStrMap, decodeStrMapEntries_map hg]

/-- Variant of `decodeOptVal_encodeOpt` whose hypotheses only cover the
value actually wrapped, for inner codecs (floats) that are not total
round trips. -/
theorem decodeOptVal_encodeOpt_of {g : Json → Dec α} {f : α → Json} (v : Option α)
    (hg : ∀ a, v = some a → g (f a) = .ok a) (hne : ∀ a, v = some a → f a ≠ .null) :
    decodeOptVal g (some (encodeOpt f v)) = .ok v := by
  cases v with
  | none => rfl
  | some a =>
    have hga := hg a rfl
    have h := hne a rfl
    simp only [encodeOpt]
    cases hv : f a with
    | null => exact absurd hv h
    | bool b => rw [hv] at hga; simp [decodeOptVal, hga]
    | num n => rw [hv] at hga; simp [decodeOptVal, hga]
    | fnum x => rw [hv] at hga; simp [decodeOptVal, hga]
    | str s => rw [hv] at hga; simp [decodeOptVal, hga]
    | arr es => rw [hv] at hga; simp [decodeOptVal, hga]
    | obj ms => rw [hv] at hga; simp [decodeOptVal, hga]

/-- Variant of `decodeElems_map` with a membership-restricted hypothesis. -/
theorem decodeElems_map_of {g : Json → Dec α} {f : α → Json} (xs : List α)
    (hg : ∀ a ∈ xs, g (f a) = .ok a) : decodeElems g (xs.map f) = .ok xs := by
  induction xs with
  | nil => rfl
  | cons a as ih =>
    simp [decodeElems, hg a (List.mem_cons_self a as),
      ih (fun b hb => hg b (List.mem_cons_of_mem a hb))]

theorem decodeList_encodeList_of {g : Json → Dec α} {f : α → Json} (xs : List α)
    (hg : ∀ a ∈ xs, g (f a) = .ok a) : decodeList g (encodeList f xs) = .ok xs := by
  simp [encodeList, decodeList, decodeElems_map_of xs hg]

theorem decodeString_encodeString (s : String) : decodeString (encodeString s) = .ok s := rfl

theorem decodeBool_encodeBool (b : Bool) : decodeBool (encodeBool b) = .ok b := rfl

theorem decodeInt_encodeInt (n : Int) : decodeInt (encodeInt n) = .ok n := rfl

theorem decodeNat_encodeNat (n : Nat) : decodeNat (encodeNat n) = .ok n := by
  simp [encodeNat, decodeNat]

theorem decodeF32_encodeF32 (x : F32) (h : x.isFinite = true) :
    decodeF32 (encodeF32 x) = .ok x := by
  simp [encodeF32, h, decodeF32]

/-! `std::time::Duration`: serde's derived impl serializes it as the
struct `{"secs": u64, "nanos": u32}` and deserializes by rebuilding via
`Duration::new`, which carries surplus nanoseconds into seconds.  The
type invariant `nanos < 1e9` of the Rust type is carried in the model. -/

structure Duration where
  secs : Nat
  nanos : Fin 1000000000
deriving DecidableEq

def encodeDuration (d : Duration) : Json :=
  .obj [("secs", .num (Int.ofNat d.secs)), ("nanos", .num (Int.ofNat d.nanos.val))]

def durationNew (secs nanos : Nat) : Duration :=
  ⟨secs + nanos / 1000000000, ⟨nanos % 1000000000, Nat.mod_lt _ (by decide)⟩⟩

def decodeDuration : Json → Dec Duration
  | .obj kvs => do
      let secs ← reqField kvs "secs" decodeNat
      let nanos ← reqField kvs "nanos" decodeNat
      pure (durationNew secs nanos)
  | _ => .error (.typeMismatch "struct Duration")

theorem decodeDuration_encodeDuration (d : Duration) :
    decodeDuration (encodeDuration d) = .ok d := by
  obtain ⟨s, ⟨n, hn⟩⟩ := d
  simp [encodeDuration, decodeDuration, reqField, decodeReqVal, List.lookup, decodeNat,
    durationNew, Nat.div_eq_of_lt hn, Nat.mod_eq_of_lt hn]

theorem encodeString_ne_null (s : String) : encodeString s ≠ .null := by simp [encodeString]

theorem encodeBool_ne_null (b : Bool) : encodeBool b ≠ .null := by simp [encodeBool]

theorem encodeInt_ne_null (n : Int) : encodeInt n ≠ .null := by simp [encodeInt]

theorem encodeNat_ne_null (n : Nat) : encodeNat n ≠ .null := by simp [encodeNat]

theorem encodeF32_ne_null (x : F32) (h : x.isFinite = true) : encodeF32 x ≠ .null := by
  simp [encodeF32, h]

theorem encodeList_ne_null (f : α → Json) (xs : List α) : encodeList f xs ≠ .null := by
  simp [encodeList]

theorem encodeStrMap_ne_null (f : α → Json) (m : List (String × α)) :
    encodeStrMap f m ≠ .null := by simp [encodeStrMap]

theorem encodeDuration_ne_null (d : Duration) : encodeDuration d ≠ .null := by
  simp [encodeDuration]

theorem lookup_skip_self (k : String) (f : α → Json) (v : Option α) (rest : List (String × Json)) :
    List.lookup k (skipField k f v ++ rest) = (Option.map f v).or (List.lookup k rest) := by
  cases v <;> simp [skipField, List.lookup]

theorem lookup_skip_ne {k k' : String} (h : (k == k') = false) (f : α → Json) (v : Option α)
    (rest : List (String × Json)) :
    List.lookup k (skipField k' f v ++ rest) = List.lookup k rest := by
  cases v <;> simp [skipField, List.lookup, h]

/-! `SimpleLB` (src/istio/load_balancer_settings/mod.rs): unit-variant
enum, externally tagged, so it rides on a bare string. -/

inductive SimpleLB where
  | ROUND_ROBIN
  | LEAST_CONN
  | RANDOM
  | PASSTHROUGH
deriving DecidableEq

def encodeSimpleLB : SimpleLB → Json
  | .ROUND_ROBIN => .str "ROUND_ROBIN"
  | .LEAST_CONN => .str "LEAST_CONN"
  | .RANDOM => .str "RANDOM"
  | .PASSTHROUGH => .str "PASSTHROUGH"

def decodeSimpleLB : Json → Dec SimpleLB
  | .str s =>
    if s = "ROUND_ROBIN" then .ok .ROUND_ROBIN
    else if s = "LEAST_CONN" then .ok .LEAST_CONN
    else if s = "RANDOM" then .ok .RANDOM
    else if s = "PASSTHROUGH" then .ok .PASSTHROUGH
    else .error (.unknownVariant "SimpleLB" s)
  | _ => .error (.typeMismatch "enum SimpleLB")

theorem rt_SimpleLB (v : SimpleLB) : decodeSimpleLB (encodeSimpleLB v) = .ok v := by
  cases v <;> rfl

theorem encodeSimpleLB_ne_null (v : SimpleLB) : encodeSimpleLB v ≠ .null := by
  cases v <;> simp [encodeSimpleLB]

/-! `TLSmode` (src/istio/client_tls_settings/mod.rs). -/

inductive TLSmode where
  | DISABLE
  | SIMPLE
  | MUTUAL
  | ISTIO_MUTUAL
deriving DecidableEq

def encodeTLSmode : TLSmode → Json
  | .DISABLE => .str "DISABLE"
  | .SIMPLE => .str "SIMPLE"
  | .MUTUAL => .str "MUTUAL"
  | .ISTIO_MUTUAL => .str "ISTIO_MUTUAL"

def decodeTLSmode : Json → Dec TLSmode
  | .str s =>
    if s = "DISABLE" then .ok .DISABLE
    else if s = "SIMPLE" then .ok .SIMPLE
    else if s = "MUTUAL" then .ok .MUTUAL
    else if s = "ISTIO_MUTUAL" then .ok .ISTIO_MUTUAL
    else .error (.unknownVariant "TLSmode" s)
  | _ => .error (.typeMismatch "enum TLSmode")

theorem rt_TLSmode (v : TLSmode) : decodeTLSmode (encodeTLSmode v) = .ok v := by
  cases v <;> rfl

theorem encodeTLSmode_ne_null (v : TLSmode) : encodeTLSmode v ≠ .null := by
  cases v <;> simp [encodeTLSmode]

/-! `HTTPCookie` (consistent_hash_lb/mod.rs): name and ttl required,
path optional; no skip attribute, so an absent path encodes as null. -/

structure HTTPCookie where
  name : String
  path : Option String
  ttl : Duration
deriving DecidableEq

def encodeHTTPCookie (c : HTTPCookie) : Json :=
  .obj [("name", encodeString c.name),
        ("path", encodeOpt encodeString c.path),
        ("ttl", encodeDuration c.ttl)]

def decodeHTTPCookie : Json → Dec HTTPCookie
  | .obj kvs => do
      let name ← reqField kvs "name" decodeString
      let path ← optField kvs "path" decodeString
      let ttl ← reqField kvs "ttl" decodeDuration
      pure ⟨name, path, ttl⟩
  | _ => .error (.typeMismatch "struct HTTPCookie")

theorem rt_HTTPCookie (c : HTTPCookie) : decodeHTTPCookie (encodeHTTPCookie c) = .ok c := by
  simp [encodeHTTPCookie, decodeHTTPCookie, reqField, optField, decodeReqVal, List.lookup,
    decodeString_encodeString, decodeDuration_encodeDuration,
    decodeOptVal_encodeOpt decodeString_encodeString encodeString_ne_null]

theorem encodeHTTPCookie_ne_null (c : HTTPCookie) : encodeHTTPCookie c ≠ .null := by
  simp [encodeHTTPCookie]

/-! `ConsistentHashLB` (load_balancer_settings/mod.rs): a derived enum
with struct variants and no serde tag attribute, hence EXTERNALLY
tagged: the wire object is keyed by the Rust variant name
(`HttpHeaderName`, `HttpCookie`, `UseSourceIp`, `HttpQueryParameterName`),
and the renamed field names (`httpCookie`, `useSourceIp`, ...) live one
level below, inside the variant's own object. -/

inductive ConsistentHashLB where
  | HttpHeaderName (http_header_name : Option String) (minimum_ring_size : Option Nat)
  | HttpCookie (http_cookie : Option HTTPCookie) (minimum_ring_size : Option Nat)
  | UseSourceIp (use_source_ip : Option Bool) (minimum_ring_size : Option Nat)
  | HttpQueryParameterName (http_query_parameter_name : Option String) (minimum_ring_size : Option Nat)
deriving DecidableEq

def encodeConsistentHashLB : ConsistentHashLB → Json
  | .HttpHeaderName hhn mrs =>
      .obj [("HttpHeaderName", .obj [("httpHeaderName", encodeOpt encodeString hhn),
                                     ("minimumRingSize", encodeOpt encodeNat mrs)])]
  | .HttpCookie hc mrs =>
      .obj [("HttpCookie", .obj [("httpCookie", encodeOpt encodeHTTPCookie hc),
                                 ("minimumRingSize", encodeOpt encodeNat mrs)])]
  | .UseSourceIp usip mrs =>
      .obj [("UseSourceIp", .obj [("useSourceIp", encodeOpt encodeBool usip),
                                  ("minimumRingSize", encodeOpt encodeNat mrs)])]
  | .HttpQueryParameterName qpn mrs =>
      .obj [("HttpQueryParameterName", .obj [("httpQueryParameterName", encodeOpt encodeString qpn),
                                             ("minimumRingSize", encodeOpt encodeNat mrs)])]

/-- Decoding an externally tagged enum: the first key of the wire object
is read as the variant name; an unrecognized first key is an
unknown-variant failure, and recognized variants additionally require
the object to have no further members. -/
def decodeConsistentHashLB : Json → Dec ConsistentHashLB
  | .obj ((tag, content) :: rest) =>
    if tag = "HttpHeaderName" then
      if rest.isEmpty then
        match content with
        | .obj kvs => do
            let hhn ← optField kvs "httpHeaderName" decodeString
            let mrs ← optField kvs "minimumRingSize" decodeNat
            pure (.HttpHeaderName hhn mrs)
        | _ => .error (.typeMismatch "struct variant ConsistentHashLB.HttpHeaderName")
      else .error (.typeMismatch "map with a single key")
    else if tag = "HttpCookie" then
      if rest.isEmpty then
        match content with
        | .obj kvs => do
            let hc ← optField kvs "httpCookie" decodeHTTPCookie
            let mrs ← optField kvs "minimumRingSize" decodeNat
            pure (.HttpCookie hc mrs)
        | _ => .error (.typeMismatch "struct variant ConsistentHashLB.HttpCookie")
      else .error (.typeMismatch "map with a single key")
    else if tag = "UseSourceIp" then
      if rest.isEmpty then
        match content with
        | .obj kvs => do
            let usip ← optField kvs "useSourceIp" decodeBool
            let mrs ← optField kvs "minimumRingSize" decodeNat
            pure (.UseSourceIp usip mrs)
        | _ => .error (.typeMismatch "struct variant ConsistentHashLB.UseSourceIp")
      else .error (.typeMismatch "map with a single key")
    else if tag = "HttpQueryParameterName" then
      if rest.isEmpty then
        match content with
        | .obj kvs => do
            let qpn ← optField kvs "httpQueryParameterName" decodeString
            let mrs ← optField kvs "minimumRingSize" decodeNat
            pure (.HttpQueryParameterName qpn mrs)
        | _ => .error (.typeMismatch "struct variant ConsistentHashLB.HttpQueryParameterName")
      else .error (.typeMismatch "map with a single key")
    else .error (.unknownVariant "ConsistentHashLB" tag)
  | _ => .error (.typeMismatch "enum ConsistentHashLB")

theorem rt_ConsistentHashLB (v : ConsistentHashLB) :
    decodeConsistentHashLB (encodeConsistentHashLB v) = .ok v := by
  cases v <;>
    simp [encodeConsistentHashLB, decodeConsistentHashLB, optField, List.lookup,
      decodeOptVal_encodeOpt decodeString_encodeString encodeString_ne_null,
      decodeOptVal_encodeOpt decodeNat_encodeNat encodeNat_ne_null,
      decodeOptVal_encodeOpt decodeBool_encodeBool encodeBool_ne_null,
      decodeOptVal_encodeOpt rt_HTTPCookie encodeHTTPCookie_ne_null]

theorem encodeConsistentHashLB_ne_null (v : ConsistentHashLB) :
    encodeConsistentHashLB v ≠ .null := by
  cases v <;> simp [encodeConsistentHashLB]

/-! `Distribute` and `Failover` (locality_load_balancer_settings/mod.rs):
plain structs with required (non-`Option`) private fields `from` / `to`. -/

structure Distribute where
  from_ : String
  to_ : List (String × Nat)
deriving DecidableEq

def encodeDistribute (d : Distribute) : Json :=
  .obj [("from", encodeString d.from_), ("to", encodeStrMap encodeNat d.to_)]

def decodeDistribute : Json → Dec Distribute
  | .obj kvs => do
      let f ← reqField kvs "from" decodeString
      let t ← reqField kvs "to" (decodeStrMap decodeNat)
      pure ⟨f, t⟩
  | _ => .error (.typeMismatch "struct Distribute")

theorem rt_Distribute (d : Distribute) : decodeDistribute (encodeDistribute d) = .ok d := by
  simp [encodeDistribute, decodeDistribute, reqField, decodeReqVal, List.lookup,
    decodeString_encodeString, decodeStrMap_encodeStrMap decodeNat_encodeNat]

theorem encodeDistribute_ne_null (d : Distribute) : encodeDistribute d ≠ .null := by
  simp [encodeDistribute]

structure Failover where
  from_ : String
  to_ : String
deriving DecidableEq

def encodeFailover (d : Failover) : Json :=
  .obj [("from", encodeString d.from_), ("to", encodeString d.to_)]

def decodeFailover : Json → Dec Failover
  | .obj kvs => do
      let f ← reqField kvs "from" decodeString
      let t ← reqField kvs "to" decodeString
      pure ⟨f, t⟩
  | _ => .error (.typeMismatch "struct Failover")

theorem rt_Failover (d : Failover) : decodeFailover (encodeFailover d) = .ok d := by
  simp [encodeFailover, decodeFailover, reqField, decodeReqVal, List.lookup,
    decodeString_encodeString]

theorem encodeFailover_ne_null (d : Failover) : encodeFailover d ≠ .null := by
  simp [encodeFailover]

/-! `LocalityLoadBalancerSetting` (destination_rule.rs): all fields
optional, struct NOT annotated with skip_serializing_none, so absent
fields are emitted as nulls. -/

structure LocalityLoadBalancerSetting where
  distribute : Option (List Distribute)
  failover : Option (List Failover)
  failover_priority : Option (List String)
  enabled : Option Bool
deriving DecidableEq

def encodeLocalityLoadBalancerSetting (s : LocalityLoadBalancerSetting) : Json :=
  .obj [("distribute", encodeOpt (encodeList encodeDistribute) s.distribute),
        ("failover", encodeOpt (encodeList encodeFailover) s.failover),
        ("failoverPriority", encodeOpt (encodeList encodeString) s.failover_priority),
        ("enabled", encodeOpt encodeBool s.enabled)]

def decodeLocalityLoadBalancerSetting : Json → Dec LocalityLoadBalancerSetting
  | .obj kvs => do
      let d ← optField kvs "distribute" (decodeList decodeDistribute)
      let f ← optField kvs "failover" (decodeList decodeFailover)
      let fp ← optField kvs "failoverPriority" (decodeList decodeString)
      let e ← optField kvs "enabled" decodeBool
      pure ⟨d, f, fp, e⟩
  | _ => .error (.typeMismatch "struct LocalityLoadBalancerSetting")

theorem rt_LocalityLoadBalancerSetting (s : LocalityLoadBalancerSetting) :
    decodeLocalityLoadBalancerSetting (encodeLocalityLoadBalancerSetting s) = .ok s := by
  simp [encodeLocalityLoadBalancerSetting, decodeLocalityLoadBalancerSetting, optField,
    List.lookup,
    decodeOptVal_encodeOpt (decodeList_encodeList rt_Distribute) (encodeList_ne_null _),
    decodeOptVal_encodeOpt (decodeList_encodeList rt_Failover) (encodeList_ne_null _),
    decodeOptVal_encodeOpt (decodeList_encodeList decodeString_encodeString) (encodeList_ne_null _),
    decodeOptVal_encodeOpt decodeBool_encodeBool encodeBool_ne_null]

theorem encodeLocalityLoadBalancerSetting_ne_null (s : LocalityLoadBalancerSetting) :
    encodeLocalityLoadBalancerSetting s ≠ .null := by
  simp [encodeLocalityLoadBalancerSetting]

/-! `LoadBalancerSettings` (destination_rule.rs lines 234-252): a derived
enum with two struct variants, externally tagged by the Rust variant
names `Simple` and `ConsistentHash`.  Both variants carry a REQUIRED
(non-`Option`) `localityLbSetting` field, and the inner discriminating
fields sit one level below the variant tag on the wire. -/

inductive LoadBalancerSettings where
  | Simple (simple : SimpleLB) (localityLbSetting : LocalityLoadBalancerSetting)
  | ConsistentHash (consistentHash : ConsistentHashLB) (localityLbSetting : LocalityLoadBalancerSetting)
deriving DecidableEq

def encodeLoadBalancerSettings : LoadBalancerSettings → Json
  | .Simple s lls =>
      .obj [("Simple", .obj [("simple", encodeSimpleLB s),
                             ("localityLbSetting", encodeLocalityLoadBalancerSetting lls)])]
  | .ConsistentHash ch lls =>
      .obj [("ConsistentHash", .obj [("consistentHash", encodeConsistentHashLB ch),
                                     ("localityLbSetting", encodeLocalityLoadBalancerSetting lls)])]

def decodeLoadBalancerSettings : Json → Dec LoadBalancerSettings
  | .obj ((tag, content) :: rest) =>
    if tag = "Simple" then
      if rest.isEmpty then
        match content with
        | .obj kvs => do
            let s ← reqField kvs "simple" decodeSimpleLB
            let lls ← reqField kvs "localityLbSetting" decodeLocalityLoadBalancerSetting
            pure (.Simple s lls)
        | _ => .error (.typeMismatch "struct variant LoadBalancerSettings.Simple")
      else .error (.typeMismatch "map with a single key")
    else if tag = "ConsistentHash" then
      if rest.isEmpty then
        match content with
        | .obj kvs => do
            let ch ← reqField kvs "consistentHash" decodeConsistentHashLB
            let lls ← reqField kvs "localityLbSetting" decodeLocalityLoadBalancerSetting
            pure (.ConsistentHash ch lls)
        | _ => .error (.typeMismatch "struct variant LoadBalancerSettings.ConsistentHash")
      else .error (.typeMismatch "map with a single key")
    else .error (.unknownVariant "LoadBalancerSettings" tag)
  | _ => .error (.typeMismatch "enum LoadBalancerSettings")

theorem rt_LoadBalancerSettings (v : LoadBalancerSettings) :
    decodeLoadBalancerSettings (encodeLoadBalancerSettings v) = .ok v := by
  cases v <;>
    simp [encodeLoadBalancerSettings, decodeLoadBalancerSettings, reqField, decodeReqVal,
      List.lookup, rt_SimpleLB, rt_ConsistentHashLB, rt_LocalityLoadBalancerSetting]

theorem encodeLoadBalancerSettings_ne_null (v : LoadBalancerSettings) :
    encodeLoadBalancerSettings v ≠ .null := by
  cases v <;> simp [encodeLoadBalancerSettings]

theorem lookup_skip_self_nil (k : String) (f : α → Json) (v : Option α) :
    List.lookup k (skipField k f v) = Option.map f v := by
  cases v <;> simp [skipField, List.lookup]

theorem lookup_skip_ne_nil {k k' : String} (h : (k == k') = false) (f : α → Json)
    (v : Option α) : List.lookup k (skipField k' f v) = none := by
  cases v <;> simp [skipField, List.lookup, h]

/-! `TcpKeepalive` (connection_pool_settings/tcp_settings.rs): NOT
annotated with skip_serializing_none, so absent fields emit null. -/

structure TcpKeepalive where
  probes : Option Nat
  time : Option Duration
  interval : Option Duration
deriving DecidableEq

def encodeTcpKeepalive (s : TcpKeepalive) : Json :=
  .obj [("probes", encodeOpt encodeNat s.probes),
        ("time", encodeOpt encodeDuration s.time),
        ("interval", encodeOpt encodeDuration s.interval)]

def decodeTcpKeepalive : Json → Dec TcpKeepalive
  | .obj kvs => do
      let p ← optField kvs "probes" decodeNat
      let t ← optField kvs "time" decodeDuration
      let i ← optField kvs "interval" decodeDuration
      pure ⟨p, t, i⟩
  | _ => .error (.typeMismatch "struct TcpKeepalive")

theorem rt_TcpKeepalive (s : TcpKeepalive) : decodeTcpKeepalive (encodeTcpKeepalive s) = .ok s := by
  simp [encodeTcpKeepalive, decodeTcpKeepalive, optField, List.lookup,
    decodeOptVal_encodeOpt decodeNat_encodeNat encodeNat_ne_null,
    decodeOptVal_encodeOpt decodeDuration_encodeDuration encodeDuration_ne_null]

theorem encodeTcpKeepalive_ne_null (s : TcpKeepalive) : encodeTcpKeepalive s ≠ .null := by
  simp [encodeTcpKeepalive]

/-! `TCPSettings` (connection_pool_settings/mod.rs): annotated with
skip_serializing_none, so absent fields are omitted from the wire. -/

structure TCPSettings where
  max_connections : Option Int
  connect_timeout : Option Duration
  tcp_keepalive : Option TcpKeepalive
deriving DecidableEq

def encodeTCPSettings (s : TCPSettings) : Json :=
  .obj (skipField "maxConnections" encodeInt s.max_connections ++
        skipField "connectTimeout" encodeDuration s.connect_timeout ++
        skipField "tcpKeepalive" encodeTcpKeepalive s.tcp_keepalive)

def decodeTCPSettings : Json → Dec TCPSettings
  | .obj kvs => do
      let mc ← optField kvs "maxConnections" decodeInt
      let ct ← optField kvs "connectTimeout" decodeDuration
      let tk ← optField kvs "tcpKeepalive" decodeTcpKeepalive
      pure ⟨mc, ct, tk⟩
  | _ => .error (.typeMismatch "struct TCPSettings")

theorem rt_TCPSettings (s : TCPSettings) : decodeTCPSettings (encodeTCPSettings s) = .ok s := by
  simp [encodeTCPSettings, decodeTCPSettings, optField, List.append_assoc,
    lookup_skip_self, lookup_skip_ne, lookup_skip_self_nil, lookup_skip_ne_nil,
    decodeOptVal_skip decodeInt_encodeInt encodeInt_ne_null,
    decodeOptVal_skip decodeDuration_encodeDuration encodeDuration_ne_null,
    decodeOptVal_skip rt_TcpKeepalive encodeTcpKeepalive_ne_null]

theorem encodeTCPSettings_ne_null (s : TCPSettings) : encodeTCPSettings s ≠ .null := by
  simp [encodeTCPSettings]

/-! `H2UpgradePolicy` (connection_pool_settings/http_settings.rs). -/

inductive H2UpgradePolicy where
  | DEFAULT
  | DO_NOT_UPGRADE
  | UPGRADE
deriving DecidableEq

def encodeH2UpgradePolicy : H2UpgradePolicy → Json
  | .DEFAULT => .str "DEFAULT"
  | .DO_NOT_UPGRADE => .str "DO_NOT_UPGRADE"
  | .UPGRADE => .str "UPGRADE"

def decodeH2UpgradePolicy : Json → Dec H2UpgradePolicy
  | .str s =>
    if s = "DEFAULT" then .ok .DEFAULT
    else if s = "DO_NOT_UPGRADE" then .ok .DO_NOT_UPGRADE
    else if s = "UPGRADE" then .ok .UPGRADE
    else .error (.unknownVariant "H2UpgradePolicy" s)
  | _ => .error (.typeMismatch "enum H2UpgradePolicy")

theorem rt_H2UpgradePolicy (v : H2UpgradePolicy) :
    decodeH2UpgradePolicy (encodeH2UpgradePolicy v) = .ok v := by
  cases v <;> rfl

theorem encodeH2UpgradePolicy_ne_null (v : H2UpgradePolicy) :
    encodeH2UpgradePolicy v ≠ .null := by
  cases v <;> simp [encodeH2UpgradePolicy]

/-! `HTTPSettings` (connection_pool_settings/mod.rs): annotated with
skip_serializing_none. -/

structure HTTPSettings where
  http1_max_pending_requests : Option Int
  http2_max_requests : Option Int
  max_requests_per_connection : Option Int
  max_retries : Option Int
  idle_timeout : Option Duration
  h2_upgrade_policy : Option H2UpgradePolicy
  use_client_protocol : Option Bool
deriving DecidableEq

def encodeHTTPSettings (s : HTTPSettings) : Json :=
  .obj (skipField "http1MaxPendingRequests" encodeInt s.http1_max_pending_requests ++
        skipField "http2MaxRequests" encodeInt s.http2_max_requests ++
        skipField "maxRequestsPerConnection" encodeInt s.max_requests_per_connection ++
        skipField "maxRetries" encodeInt s.max_retries ++
        skipField "idleTimeout" encodeDuration s.idle_timeout ++
        skipField "h2UpgradePolicy" encodeH2UpgradePolicy s.h2_upgrade_policy ++
        skipField "useClientProtocol" encodeBool s.use_client_protocol)

def decodeHTTPSettings : Json → Dec HTTPSettings
  | .obj kvs => do
      let a ← optField kvs "http1MaxPendingRequests" decodeInt
      let b ← optField kvs "http2MaxRequests" decodeInt
      let c ← optField kvs "maxRequestsPerConnection" decodeInt
      let d ← optField kvs "maxRetries" decodeInt
      let e ← optField kvs "idleTimeout" decodeDuration
      let f ← optField kvs "h2UpgradePolicy" decodeH2UpgradePolicy
      let g ← optField kvs "useClientProtocol" decodeBool
      pure ⟨a, b, c, d, e, f, g⟩
  | _ => .error (.typeMismatch "struct HTTPSettings")

theorem rt_HTTPSettings (s : HTTPSettings) : decodeHTTPSettings (encodeHTTPSettings s) = .ok s := by
  simp [encodeHTTPSettings, decodeHTTPSettings, optField, List.append_assoc,
    lookup_skip_self, lookup_skip_ne, lookup_skip_self_nil, lookup_skip_ne_nil,
    decodeOptVal_skip decodeInt_encodeInt encodeInt_ne_null,
    decodeOptVal_skip decodeDuration_encodeDuration encodeDuration_ne_null,
    decodeOptVal_skip rt_H2UpgradePolicy encodeH2UpgradePolicy_ne_null,
    decodeOptVal_skip decodeBool_encodeBool encodeBool_ne_null]

theorem encodeHTTPSettings_ne_null (s : HTTPSettings) : encodeHTTPSettings s ≠ .null := by
  simp [encodeHTTPSettings]

/-! `ConnectionPoolSettings` (destination_rule.rs): NOT annotated with
skip_serializing_none, so absent tcp/http fields emit null. -/

structure ConnectionPoolSettings where
  tcp : Option TCPSettings
  http : Option HTTPSettings
deriving DecidableEq

def encodeConnectionPoolSettings (s : ConnectionPoolSettings) : Json :=
  .obj [("tcp", encodeOpt encodeTCPSettings s.tcp),
        ("http", encodeOpt encodeHTTPSettings s.http)]

def decodeConnectionPoolSettings : Json → Dec ConnectionPoolSettings
  | .obj kvs => do
      let t ← optField kvs "tcp" decodeTCPSettings
      let h ← optField kvs "http" decodeHTTPSettings
      pure ⟨t, h⟩
  | _ => .error (.typeMismatch "struct ConnectionPoolSettings")

theorem rt_ConnectionPoolSettings (s : ConnectionPoolSettings) :
    decodeConnectionPoolSettings (encodeConnectionPoolSettings s) = .ok s := by
  simp [encodeConnectionPoolSettings, decodeConnectionPoolSettings, optField, List.lookup,
    decodeOptVal_encodeOpt rt_TCPSettings encodeTCPSettings_ne_null,
    decodeOptVal_encodeOpt rt_HTTPSettings encodeHTTPSettings_ne_null]

theorem encodeConnectionPoolSettings_ne_null (s : ConnectionPoolSettings) :
    encodeConnectionPoolSettings s ≠ .null := by
  simp [encodeConnectionPoolSettings]

/-! `google.protobuf.UInt32Value` (istio/mod.rs): annotated with
skip_serializing_none; a single optional `value` field. -/

structure UInt32Value where
  value : Option Nat
deriving DecidableEq

def encodeUInt32Value (s : UInt32Value) : Json :=
  .obj (skipField "value" encodeNat s.value)

def decodeUInt32Value : Json → Dec UInt32Value
  | .obj kvs => do
      let v ← optField kvs "value" decodeNat
      pure ⟨v⟩
  | _ => .error (.typeMismatch "struct UInt32Value")

theorem rt_UInt32Value (s : UInt32Value) : decodeUInt32Value (encodeUInt32Value s) = .ok s := by
  simp [encodeUInt32Value, decodeUInt32Value, optField, lookup_skip_self_nil,
    decodeOptVal_skip decodeNat_encodeNat encodeNat_ne_null]

theorem encodeUInt32Value_ne_null (s : UInt32Value) : encodeUInt32Value s ≠ .null := by
  simp [encodeUInt32Value]

/-! `OutlierDetection` (destination_rule.rs): NOT annotated with
skip_serializing_none. -/

structure OutlierDetection where
  split_external_local_origin_errors : Option Bool
  consecutive_local_origin_failures : Option UInt32Value
  consecutive_gateway_errors : Option UInt32Value
  consecutive5xx_errors : Option UInt32Value
  interval : Option Duration
  base_ejection_time : Option Duration
  max_ejection_percent : Option Int
  min_health_percent : Option Int
deriving DecidableEq

def encodeOutlierDetection (s : OutlierDetection) : Json :=
  .obj [("splitExternalLocalOriginErrors", encodeOpt encodeBool s.split_external_local_origin_errors),
        ("consecutiveLocalOriginFailures", encodeOpt encodeUInt32Value s.consecutive_local_origin_failures),
        ("consecutiveGatewayErrors", encodeOpt encodeUInt32Value s.consecutive_gateway_errors),
        ("consecutive5xxErrors", encodeOpt encodeUInt32Value s.consecutive5xx_errors),
        ("interval", encodeOpt encodeDuration s.interval),
        ("baseEjectionTime", encodeOpt encodeDuration s.base_ejection_time),
        ("maxEjectionPercent", encodeOpt encodeInt s.max_ejection_percent),
        ("minHealthPercent", encodeOpt encodeInt s.min_health_percent)]

def decodeOutlierDetection : Json → Dec OutlierDetection
  | .obj kvs => do
      let a ← optField kvs "splitExternalLocalOriginErrors" decodeBool
      let b ← optField kvs "consecutiveLocalOriginFailures" decodeUInt32Value
      let c ← optField kvs "consecutiveGatewayErrors" decodeUInt32Value
      let d ← optField kvs "consecutive5xxErrors" decodeUInt32Value
      let e ← optField kvs "interval" decodeDuration
      let f ← optField kvs "baseEjectionTime" decodeDuration
      let g ← optField kvs "maxEjectionPercent" decodeInt
      let h ← optField kvs "minHealthPercent" decodeInt
      pure ⟨a, b, c, d, e, f, g, h⟩
  | _ => .error (.typeMismatch "struct OutlierDetection")

theorem rt_OutlierDetection (s : OutlierDetection) :
    decodeOutlierDetection (encodeOutlierDetection s) = .ok s := by
  simp [encodeOutlierDetection, decodeOutlierDetection, optField, List.lookup,
    decodeOptVal_encodeOpt decodeBool_encodeBool encodeBool_ne_null,
    decodeOptVal_encodeOpt rt_UInt32Value encodeUInt32Value_ne_null,
    decodeOptVal_encodeOpt decodeDuration_encodeDuration encodeDuration_ne_null,
    decodeOptVal_encodeOpt decodeInt_encodeInt encodeInt_ne_null]

theorem encodeOutlierDetection_ne_null (s : OutlierDetection) :
    encodeOutlierDetection s ≠ .null := by
  simp [encodeOutlierDetection]

/-! `ClientTLSSettings` (destination_rule.rs): `mode` is a required
(non-`Option`) field; the struct is NOT annotated with
skip_serializing_none. -/

structure ClientTLSSettings where
  mode : TLSmode
  client_certificate : Option String
  private_key : Option String
  ca_certificates : Option String
  credential_name : Option String
  subject_alt_names : Option (List String)
  sni : Option String
  insecure_skip_verify : Option Bool
deriving DecidableEq

def encodeClientTLSSettings (s : ClientTLSSettings) : Json :=
  .obj [("mode", encodeTLSmode s.mode),
        ("clientCertificate", encodeOpt encodeString s.client_certificate),
        ("privateKey", encodeOpt encodeString s.private_key),
        ("caCertificates", encodeOpt encodeString s.ca_certificates),
        ("credentialName", encodeOpt encodeString s.credential_name),
        ("subjectAltNames", encodeOpt (encodeList encodeString) s.subject_alt_names),
        ("sni", encodeOpt encodeString s.sni),
        ("insecureSkipVerify", encodeOpt encodeBool s.insecure_skip_verify)]

def decodeClientTLSSettings : Json → Dec ClientTLSSettings
  | .obj kvs => do
      let m ← reqField kvs "mode" decodeTLSmode
      let a ← optField kvs "clientCertificate" decodeString
      let b ← optField kvs "privateKey" decodeString
      let c ← optField kvs "caCertificates" decodeString
      let d ← optField kvs "credentialName" decodeString
      let e ← optField kvs "subjectAltNames" (decodeList decodeString)
      let f ← optField kvs "sni" decodeString
      let g ← optField kvs "insecureSkipVerify" decodeBool
      pure ⟨m, a, b, c, d, e, f, g⟩
  | _ => .error (.typeMismatch "struct ClientTLSSettings")

theorem rt_ClientTLSSettings (s : ClientTLSSettings) :
    decodeClientTLSSettings (encodeClientTLSSettings s) = .ok s := by
  simp [encodeClientTLSSettings, decodeClientTLSSettings, reqField, optField, decodeReqVal,
    List.lookup, rt_TLSmode,
    decodeOptVal_encodeOpt decodeString_encodeString encodeString_ne_null,
    decodeOptVal_encodeOpt (decodeList_encodeList decodeString_encodeString) (encodeList_ne_null _),
    decodeOptVal_encodeOpt decodeBool_encodeBool encodeBool_ne_null]

theorem encodeClientTLSSettings_ne_null (s : ClientTLSSettings) :
    encodeClientTLSSettings s ≠ .null := by
  simp [encodeClientTLSSettings]

/-! `PortSelector` (virtual_service.rs). -/

structure PortSelector where
  number : Option Nat
deriving DecidableEq

def encodePortSelector (s : PortSelector) : Json :=
  .obj [("number", encodeOpt encodeNat s.number)]

def decodePortSelector : Json → Dec PortSelector
  | .obj kvs => do
      let n ← optField kvs "number" decodeNat
      pure ⟨n⟩
  | _ => .error (.typeMismatch "struct PortSelector")

theorem rt_PortSelector (s : PortSelector) : decodePortSelector (encodePortSelector s) = .ok s := by
  simp [encodePortSelector, decodePortSelector, optField, List.lookup,
    decodeOptVal_encodeOpt decodeNat_encodeNat encodeNat_ne_null]

theorem encodePortSelector_ne_null (s : PortSelector) : encodePortSelector s ≠ .null := by
  simp [encodePortSelector]

/-! `PortTrafficPolicy` (traffic_policy/mod.rs): all fields optional,
NOT annotated with skip_serializing_none. -/

structure PortTrafficPolicy where
  port : Option PortSelector
  load_balancer : Option LoadBalancerSettings
  connection_pool : Option ConnectionPoolSettings
  outlier_detection : Option OutlierDetection
  tls : Option ClientTLSSettings
deriving DecidableEq

def encodePortTrafficPolicy (s : PortTrafficPolicy) : Json :=
  .obj [("port", encodeOpt encodePortSelector s.port),
        ("loadBalancer", encodeOpt encodeLoadBalancerSettings s.load_balancer),
        ("connectionPool", encodeOpt encodeConnectionPoolSettings s.connection_pool),
        ("outlierDetection", encodeOpt encodeOutlierDetection s.outlier_detection),
        ("tls", encodeOpt encodeClientTLSSettings s.tls)]

def decodePortTrafficPolicy : Json → Dec PortTrafficPolicy
  | .obj kvs => do
      let p ← optField kvs "port" decodePortSelector
      let lb ← optField kvs "loadBalancer" decodeLoadBalancerSettings
      let cp ← optField kvs "connectionPool" decodeConnectionPoolSettings
      let od ← optField kvs "outlierDetection" decodeOutlierDetection
      let t ← optField kvs "tls" decodeClientTLSSettings
      pure ⟨p, lb, cp, od, t⟩
  | _ => .error (.typeMismatch "struct PortTrafficPolicy")

theorem rt_PortTrafficPolicy (s : PortTrafficPolicy) :
    decodePortTrafficPolicy (encodePortTrafficPolicy s) = .ok s := by
  simp [encodePortTrafficPolicy, decodePortTrafficPolicy, optField, List.lookup,
    decodeOptVal_encodeOpt rt_PortSelector encodePortSelector_ne_null,
    decodeOptVal_encodeOpt rt_LoadBalancerSettings encodeLoadBalancerSettings_ne_null,
    decodeOptVal_encodeOpt rt_ConnectionPoolSettings encodeConnectionPoolSettings_ne_null,
    decodeOptVal_encodeOpt rt_OutlierDetection encodeOutlierDetection_ne_null,
    decodeOptVal_encodeOpt rt_ClientTLSSettings encodeClientTLSSettings_ne_null]

theorem encodePortTrafficPolicy_ne_null (s : PortTrafficPolicy) :
    encodePortTrafficPolicy s ≠ .null := by
  simp [encodePortTrafficPolicy]

/-! `TrafficPolicy` (destination_rule.rs lines 134-163): all five fields
optional, NOT annotated with skip_serializing_none — absent fields are
emitted as explicit nulls. -/

structure TrafficPolicy where
  load_balancer : Option LoadBalancerSettings
  connection_pool : Option ConnectionPoolSettings
  outlier_detection : Option OutlierDetection
  tls : Option ClientTLSSettings
  port_level_settings : Option (List PortTrafficPolicy)
deriving DecidableEq

def encodeTrafficPolicy (s : TrafficPolicy) : Json :=
  .obj [("loadBalancer", encodeOpt encodeLoadBalancerSettings s.load_balancer),
        ("connectionPool", encodeOpt encodeConnectionPoolSettings s.connection_pool),
        ("outlierDetection", encodeOpt encodeOutlierDetection s.outlier_detection),
        ("tls", encodeOpt encodeClientTLSSettings s.tls),
        ("portLevelSettings", encodeOpt (encodeList encodePortTrafficPolicy) s.port_level_settings)]

def decodeTrafficPolicy : Json → Dec TrafficPolicy
  | .obj kvs => do
      let lb ← optField kvs "loadBalancer" decodeLoadBalancerSettings
      let cp ← optField kvs "connectionPool" decodeConnectionPoolSettings
      let od ← optField kvs "outlierDetection" decodeOutlierDetection
      let t ← optField kvs "tls" decodeClientTLSSettings
      let pls ← optField kvs "portLevelSettings" (decodeList decodePortTrafficPolicy)
      pure ⟨lb, cp, od, t, pls⟩
  | _ => .error (.typeMismatch "struct TrafficPolicy")

theorem rt_TrafficPolicy (s : TrafficPolicy) :
    decodeTrafficPolicy (encodeTrafficPolicy s) = .ok s := by
  simp [encodeTrafficPolicy, decodeTrafficPolicy, optField, List.lookup,
    decodeOptVal_encodeOpt rt_LoadBalancerSettings encodeLoadBalancerSettings_ne_null,
    decodeOptVal_encodeOpt rt_ConnectionPoolSettings encodeConnectionPoolSettings_ne_null,
    decodeOptVal_encodeOpt rt_OutlierDetection encodeOutlierDetection_ne_null,
    decodeOptVal_encodeOpt rt_ClientTLSSettings encodeClientTLSSettings_ne_null,
    decodeOptVal_encodeOpt (decodeList_encodeList rt_PortTrafficPolicy) (encodeList_ne_null _)]

theorem encodeTrafficPolicy_ne_null (s : TrafficPolicy) : encodeTrafficPolicy s ≠ .null := by
  simp [encodeTrafficPolicy]

/-! `Subset` (destination_rule.rs lines 188-202): `name`, `labels` and
`traffic_policy` are all required at decode time — `labels` and
`traffic_policy` are not wrapped in `Option` even though their comments
say "Required: No". -/

structure Subset where
  name : String
  labels : List (String × String)
  traffic_policy : TrafficPolicy
deriving DecidableEq

def encodeSubset (s : Subset) : Json :=
  .obj [("name", encodeString s.name),
        ("labels", encodeStrMap encodeString s.labels),
        ("trafficPolicy", encodeTrafficPolicy s.traffic_policy)]

def decodeSubset : Json → Dec Subset
  | .obj kvs => do
      let n ← reqField kvs "name" decodeString
      let l ← reqField kvs "labels" (decodeStrMap decodeString)
      let tp ← reqField kvs "trafficPolicy" decodeTrafficPolicy
      pure ⟨n, l, tp⟩
  | _ => .error (.typeMismatch "struct Subset")

theorem rt_Subset (s : Subset) : decodeSubset (encodeSubset s) = .ok s := by
  simp [encodeSubset, decodeSubset, reqField, decodeReqVal, List.lookup,
    decodeString_encodeString, decodeStrMap_encodeStrMap decodeString_encodeString,
    rt_TrafficPolicy]

theorem encodeSubset_ne_null (s : Subset) : encodeSubset s ≠ .null := by
  simp [encodeSubset]

/-! `DestinationRuleSpec` (destination_rule.rs lines 95-132): `host` and
`traffic_policy` are required at decode time (`traffic_policy` is not an
`Option` despite its "Required: No" comment); `subsets` and `export_to`
are optional and emit null when absent (no skip attribute). -/

structure DestinationRuleSpec where
  host : String
  traffic_policy : TrafficPolicy
  subsets : Option (List Subset)
  export_to : Option (List String)
deriving DecidableEq

def encodeDestinationRuleSpec (s : DestinationRuleSpec) : Json :=
  .obj [("host", encodeString s.host),
        ("trafficPolicy", encodeTrafficPolicy s.traffic_policy),
        ("subsets", encodeOpt (encodeList encodeSubset) s.subsets),
        ("exportTo", encodeOpt (encodeList encodeString) s.export_to)]

def decodeDestinationRuleSpec : Json → Dec DestinationRuleSpec
  | .obj kvs => do
      let h ← reqField kvs "host" decodeString
      let tp ← reqField kvs "trafficPolicy" decodeTrafficPolicy
      let ss ← optField kvs "subsets" (decodeList decodeSubset)
      let et ← optField kvs "exportTo" (decodeList decodeString)
      pure ⟨h, tp, ss, et⟩
  | _ => .error (.typeMismatch "struct DestinationRuleSpec")

theorem rt_DestinationRuleSpec (s : DestinationRuleSpec) :
    decodeDestinationRuleSpec (encodeDestinationRuleSpec s) = .ok s := by
  simp [encodeDestinationRuleSpec, decodeDestinationRuleSpec, reqField, optField, decodeReqVal,
    List.lookup, decodeString_encodeString, rt_TrafficPolicy,
    decodeOptVal_encodeOpt (decodeList_encodeList rt_Subset) (encodeList_ne_null _),
    decodeOptVal_encodeOpt (decodeList_encodeList decodeString_encodeString) (encodeList_ne_null _)]

theorem encodeDestinationRuleSpec_ne_null (s : DestinationRuleSpec) :
    encodeDestinationRuleSpec s ≠ .null := by
  simp [encodeDestinationRuleSpec]

/-! `ObjectMeta` is owned by the k8s_openapi collaborator (out of scope
for this repository); it is modeled minimally, with k8s_openapi's
skip-absent-fields serialization convention. -/

structure ObjectMeta where
  name : Option String
  namespace_ : Option String
deriving DecidableEq

def encodeObjectMeta (m : ObjectMeta) : Json :=
  .obj (skipField "name" encodeString m.name ++
        skipField "namespace" encodeString m.namespace_)

def decodeObjectMeta : Json → Dec ObjectMeta
  | .obj kvs => do
      let n ← optField kvs "name" decodeString
      let ns ← optField kvs "namespace" decodeString
      pure ⟨n, ns⟩
  | _ => .error (.typeMismatch "struct ObjectMeta")

theorem rt_ObjectMeta (m : ObjectMeta) : decodeObjectMeta (encodeObjectMeta m) = .ok m := by
  simp [encodeObjectMeta, decodeObjectMeta, optField, List.append_assoc,
    lookup_skip_self, lookup_skip_ne, lookup_skip_self_nil, lookup_skip_ne_nil,
    decodeOptVal_skip decodeString_encodeString encodeString_ne_null]

theorem encodeObjectMeta_ne_null (m : ObjectMeta) : encodeObjectMeta m ≠ .null := by
  simp [encodeObjectMeta]

/-! `DestinationRule` (destination_rule.rs lines 60-79): top-level
resource; NOT annotated with skip_serializing_none, so `spec` and
`status` are emitted (as null when absent).  The derived Serialize does
NOT add `apiVersion`/`kind` members: those exist only as associated
constants of the `Resource` impl. -/

structure DestinationRule where
  metadata : ObjectMeta
  spec : Option DestinationRuleSpec
  status : Option Unit
deriving DecidableEq

def DestinationRule.API_VERSION : String := "networking.istio.io/v1beta1"

def DestinationRule.GROUP : String := "networking.istio.io"

def DestinationRule.KIND : String := "DestinationRule"

def DestinationRule.VERSION : String := "v1beta1"

def DestinationRule.URL_PATH_SEGMENT : String := "destinationrules"

def encodeDestinationRule (r : DestinationRule) : Json :=
  .obj [("metadata", encodeObjectMeta r.metadata),
        ("spec", encodeOpt encodeDestinationRuleSpec r.spec),
        ("status", encodeOpt encodeUnit r.status)]

def decodeUnitVal : Json → Dec Unit
  | .null => .ok ()
  | _ => .error (.typeMismatch "unit")

def decodeDestinationRule : Json → Dec DestinationRule
  | .obj kvs => do
      let m ← reqField kvs "metadata" decodeObjectMeta
      let sp ← optField kvs "spec" decodeDestinationRuleSpec
      let st ← optField kvs "status" decodeUnitVal
      pure ⟨m, sp, st⟩
  | _ => .error (.typeMismatch "struct DestinationRule")

theorem decodeOptVal_none (g : Json → Dec α) : decodeOptVal g none = .ok none := rfl

theorem decodeOptVal_unit_none (g : Json → Dec α) :
    decodeOptVal g (some (encodeOpt encodeUnit none)) = .ok none := rfl

theorem rt_DestinationRule (r : DestinationRule) (h : r.status ≠ some ()) :
    decodeDestinationRule (encodeDestinationRule r) = .ok r := by
  obtain ⟨m, sp, st⟩ := r
  cases st with
  | some u => cases u; exact absurd rfl h
  | none =>
    simp [encodeDestinationRule, decodeDestinationRule, reqField, optField, decodeReqVal,
      List.lookup, rt_ObjectMeta, decodeOptVal_unit_none,
      decodeOptVal_encodeOpt rt_DestinationRuleSpec encodeDestinationRuleSpec_ne_null]

/-! Gateway tree (gateway.rs): every struct here IS annotated with
skip_serializing_none, so absent optional fields are omitted. -/

inductive GwTLSmode where
  | PASSTHROUGH
  | SIMPLE
  | MUTUAL
  | AUTO_PASSTHROUGH
  | ISTIO_MUTUAL
deriving DecidableEq

def encodeGwTLSmode : GwTLSmode → Json
  | .PASSTHROUGH => .str "PASSTHROUGH"
  | .SIMPLE => .str "SIMPLE"
  | .MUTUAL => .str "MUTUAL"
  | .AUTO_PASSTHROUGH => .str "AUTO_PASSTHROUGH"
  | .ISTIO_MUTUAL => .str "ISTIO_MUTUAL"

def decodeGwTLSmode : Json → Dec GwTLSmode
  | .str s =>
    if s = "PASSTHROUGH" then .ok .PASSTHROUGH
    else if s = "SIMPLE" then .ok .SIMPLE
    else if s = "MUTUAL" then .ok .MUTUAL
    else if s = "AUTO_PASSTHROUGH" then .ok .AUTO_PASSTHROUGH
    else if s = "ISTIO_MUTUAL" then .ok .ISTIO_MUTUAL
    else .error (.unknownVariant "TLSmode" s)
  | _ => .error (.typeMismatch "enum TLSmode")

theorem rt_GwTLSmode (v : GwTLSmode) : decodeGwTLSmode (encodeGwTLSmode v) = .ok v := by
  cases v <;> rfl

theorem encodeGwTLSmode_ne_null (v : GwTLSmode) : encodeGwTLSmode v ≠ .null := by
  cases v <;> simp [encodeGwTLSmode]

inductive TLSProtocol where
  | TLS_AUTO
  | TLSV1_0
  | TLSV1_1
  | TLSV1_2
  | TLSV1_3
deriving DecidableEq

def encodeTLSProtocol : TLSProtocol → Json
  | .TLS_AUTO => .str "TLS_AUTO"
  | .TLSV1_0 => .str "TLSV1_0"
  | .TLSV1_1 => .str "TLSV1_1"
  | .TLSV1_2 => .str "TLSV1_2"
  | .TLSV1_3 => .str "TLSV1_3"

def decodeTLSProtocol : Json → Dec TLSProtocol
  | .str s =>
    if s = "TLS_AUTO" then .ok .TLS_AUTO
    else if s = "TLSV1_0" then .ok .TLSV1_0
    else if s = "TLSV1_1" then .ok .TLSV1_1
    else if s = "TLSV1_2" then .ok .TLSV1_2
    else if s = "TLSV1_3" then .ok .TLSV1_3
    else .error (.unknownVariant "TLSProtocol" s)
  | _ => .error (.typeMismatch "enum TLSProtocol")

theorem rt_TLSProtocol (v : TLSProtocol) : decodeTLSProtocol (encodeTLSProtocol v) = .ok v := by
  cases v <;> rfl

theorem encodeTLSProtocol_ne_null (v : TLSProtocol) : encodeTLSProtocol v ≠ .null := by
  cases v <;> simp [encodeTLSProtocol]

/-- `Port` (gateway.rs): number/protocol/name required, targetPort
optional and skipped when absent. -/
structure GwPort where
  number : Int
  protocol : String
  name : String
  target_port : Option Nat
deriving DecidableEq

def encodeGwPort (p : GwPort) : Json :=
  .obj ([("number", encodeInt p.number),
         ("protocol", encodeString p.protocol),
         ("name", encodeString p.name)] ++
        skipField "targetPort" encodeNat p.target_port)

def decodeGwPort : Json → Dec GwPort
  | .obj kvs => do
      let n ← reqField kvs "number" decodeInt
      let pr ← reqField kvs "protocol" decodeString
      let nm ← reqField kvs "name" decodeString
      let tp ← optField kvs "targetPort" decodeNat
      pure ⟨n, pr, nm, tp⟩
  | _ => .error (.typeMismatch "struct Port")

theorem rt_GwPort (p : GwPort) : decodeGwPort (encodeGwPort p) = .ok p := by
  simp [encodeGwPort, decodeGwPort, reqField, optField, decodeReqVal, List.lookup,
    List.append_assoc, lookup_skip_self_nil, lookup_skip_ne_nil,
    decodeInt_encodeInt, decodeString_encodeString,
    decodeOptVal_skip decodeNat_encodeNat encodeNat_ne_null]

theorem encodeGwPort_ne_null (p : GwPort) : encodeGwPort p ≠ .null := by
  simp [encodeGwPort]

structure ServerTLSSettings where
  https_redirect : Option Bool
  mode : Option GwTLSmode
  server_certificate : Option String
  private_key : Option String
  ca_certificates : Option String
  credential_name : Option String
  subject_alt_names : Option (List String)
  verify_certificate_spki : Option (List String)
  verify_certificate_hash : Option (List String)
  min_protocol_version : Option TLSProtocol
  max_protocol_version : Option TLSProtocol
  cipher_suites : Option (List String)
deriving DecidableEq

def encodeServerTLSSettings (s : ServerTLSSettings) : Json :=
  .obj (skipField "httpsRedirect" encodeBool s.https_redirect ++
        skipField "mode" encodeGwTLSmode s.mode ++
        skipField "serverCertificate" encodeString s.server_certificate ++
        skipField "privateKey" encodeString s.private_key ++
        skipField "caCertificates" encodeString s.ca_certificates ++
        skipField "credentialName" encodeString s.credential_name ++
        skipField "subjectAltNames" (encodeList encodeString) s.subject_alt_names ++
        skipField "verifyCertificateSpki" (encodeList encodeString) s.verify_certificate_spki ++
        skipField "verifyCertificateHash" (encodeList encodeString) s.verify_certificate_hash ++
        skipField "minProtocolVersion" encodeTLSProtocol s.min_protocol_version ++
        skipField "maxProtocolVersion" encodeTLSProtocol s.max_protocol_version ++
        skipField "cipherSuites" (encodeList encodeString) s.cipher_suites)

def decodeServerTLSSettings : Json → Dec ServerTLSSettings
  | .obj kvs => do
      let a ← optField kvs "httpsRedirect" decodeBool
      let b ← optField kvs "mode" decodeGwTLSmode
      let c ← optField kvs "serverCertificate" decodeString
      let d ← optField kvs "privateKey" decodeString
      let e ← optField kvs "caCertificates" decodeString
      let f ← optField kvs "credentialName" decodeString
      let g ← optField kvs "subjectAltNames" (decodeList decodeString)
      let h ← optField kvs "verifyCertificateSpki" (decodeList decodeString)
      let i ← optField kvs "verifyCertificateHash" (decodeList decodeString)
      let j ← optField kvs "minProtocolVersion" decodeTLSProtocol
      let k ← optField kvs "maxProtocolVersion" decodeTLSProtocol
      let l ← optField kvs "cipherSuites" (decodeList decodeString)
      pure ⟨a, b, c, d, e, f, g, h, i, j, k, l⟩
  | _ => .error (.typeMismatch "struct ServerTLSSettings")

theorem rt_ServerTLSSettings (s : ServerTLSSettings) :
    decodeServerTLSSettings (encodeServerTLSSettings s) = .ok s := by
  simp [encodeServerTLSSettings, decodeServerTLSSettings, optField, List.append_assoc,
    lookup_skip_self, lookup_skip_ne, lookup_skip_self_nil, lookup_skip_ne_nil,
    decodeOptVal_skip decodeBool_encodeBool encodeBool_ne_null,
    decodeOptVal_skip rt_GwTLSmode encodeGwTLSmode_ne_null,
    decodeOptVal_skip decodeString_encodeString encodeString_ne_null,
    decodeOptVal_skip (decodeList_encodeList decodeString_encodeString) (encodeList_ne_null _),
    decodeOptVal_skip rt_TLSProtocol encodeTLSProtocol_ne_null]

theorem encodeServerTLSSettings_ne_null (s : ServerTLSSettings) :
    encodeServerTLSSettings s ≠ .null := by
  simp [encodeServerTLSSettings]

structure Server where
  port : GwPort
  bind : Option String
  hosts : List String
  tls : Option ServerTLSSettings
  name : Option String
deriving DecidableEq

def encodeServer (s : Server) : Json :=
  .obj (("port", encodeGwPort s.port) ::
        (skipField "bind" encodeString s.bind ++
         (("hosts", encodeList encodeString s.hosts) ::
          (skipField "tls" encodeServerTLSSettings s.tls ++
           skipField "name" encodeString s.name))))

def decodeServer : Json → Dec Server
  | .obj kvs => do
      let p ← reqField kvs "port" decodeGwPort
      let b ← optField kvs "bind" decodeString
      let h ← reqField kvs "hosts" (decodeList decodeString)
      let t ← optField kvs "tls" decodeServerTLSSettings
      let n ← optField kvs "name" decodeString
      pure ⟨p, b, h, t, n⟩
  | _ => .error (.typeMismatch "struct Server")

theorem rt_Server (s : Server) : decodeServer (encodeServer s) = .ok s := by
  simp [encodeServer, decodeServer, reqField, optField, decodeReqVal, List.lookup,
    List.append_assoc, lookup_skip_self, lookup_skip_ne, lookup_skip_self_nil,
    lookup_skip_ne_nil, rt_GwPort, decodeList_encodeList decodeString_encodeString,
    decodeOptVal_skip decodeString_encodeString encodeString_ne_null,
    decodeOptVal_skip rt_ServerTLSSettings encodeServerTLSSettings_ne_null]

theorem encodeServer_ne_null (s : Server) : encodeServer s ≠ .null := by
  simp [encodeServer]

structure GatewaySpec where
  servers : List Server
  selector : List (String × String)
deriving DecidableEq

def encodeGatewaySpec (s : GatewaySpec) : Json :=
  .obj [("servers", encodeList encodeServer s.servers),
        ("selector", encodeStrMap encodeString s.selector)]

def decodeGatewaySpec : Json → Dec GatewaySpec
  | .obj kvs => do
      let sv ← reqField kvs "servers" (decodeList decodeServer)
      let se ← reqField kvs "selector" (decodeStrMap decodeString)
      pure ⟨sv, se⟩
  | _ => .error (.typeMismatch "struct GatewaySpec")

theorem rt_GatewaySpec (s : GatewaySpec) : decodeGatewaySpec (encodeGatewaySpec s) = .ok s := by
  simp [encodeGatewaySpec, decodeGatewaySpec, reqField, decodeReqVal, List.lookup,
    decodeList_encodeList rt_Server, decodeStrMap_encodeStrMap decodeString_encodeString]

theorem encodeGatewaySpec_ne_null (s : GatewaySpec) : encodeGatewaySpec s ≠ .null := by
  simp [encodeGatewaySpec]

/-- `Gateway` (gateway.rs lines 4-24): the top-level resource IS
annotated with skip_serializing_none, so absent `spec`/`status` are
omitted entirely; like the other resources, the derived Serialize emits
no `apiVersion`/`kind` members. -/
structure Gateway where
  metadata : ObjectMeta
  spec : Option GatewaySpec
  status : Option Unit
deriving DecidableEq

def Gateway.API_VERSION : String := "networking.istio.io/v1beta1"

def Gateway.KIND : String := "Gateway"

def Gateway.URL_PATH_SEGMENT : String := "gateways"

def encodeGateway (r : Gateway) : Json :=
  .obj (("metadata", encodeObjectMeta r.metadata) ::
        (skipField "spec" encodeGatewaySpec r.spec ++
         skipField "status" encodeUnit r.status))

def decodeGateway : Json → Dec Gateway
  | .obj kvs => do
      let m ← reqField kvs "metadata" decodeObjectMeta
      let sp ← optField kvs "spec" decodeGatewaySpec
      let st ← optField kvs "status" decodeUnitVal
      pure ⟨m, sp, st⟩
  | _ => .error (.typeMismatch "struct Gateway")

theorem rt_Gateway (r : Gateway) (h : r.status ≠ some ()) :
    decodeGateway (encodeGateway r) = .ok r := by
  obtain ⟨m, sp, st⟩ := r
  cases st with
  | some u => cases u; exact absurd rfl h
  | none =>
    simp [encodeGateway, decodeGateway, reqField, optField, decodeReqVal, List.lookup,
      List.append_assoc, lookup_skip_self, lookup_skip_ne, lookup_skip_self_nil,
      lookup_skip_ne_nil, rt_ObjectMeta, decodeOptVal_none,
      decodeOptVal_skip rt_GatewaySpec encodeGatewaySpec_ne_null]

/-! VirtualService tree (virtual_service.rs).  None of these structs is
annotated with skip_serializing_none, so absent optional fields are
emitted as explicit nulls. -/

/-- `StringMatch`: externally tagged enum with lowercase Rust variant
names `exact`, `prefix`, `regex`, each carrying one string. -/
inductive StringMatch where
  | exact (s : String)
  | prefix_ (s : String)
  | regex (s : String)
deriving DecidableEq

def encodeStringMatch : StringMatch → Json
  | .exact s => .obj [("exact", .str s)]
  | .prefix_ s => .obj [("prefix", .str s)]
  | .regex s => .obj [("regex", .str s)]

def decodeStringMatch : Json → Dec StringMatch
  | .obj ((tag, content) :: rest) =>
    if tag = "exact" then
      if rest.isEmpty then (decodeString content).map .exact
      else .error (.typeMismatch "map with a single key")
    else if tag = "prefix" then
      if rest.isEmpty then (decodeString content).map .prefix_
      else .error (.typeMismatch "map with a single key")
    else if tag = "regex" then
      if rest.isEmpty then (decodeString content).map .regex
      else .error (.typeMismatch "map with a single key")
    else .error (.unknownVariant "StringMatch" tag)
  | _ => .error (.typeMismatch "enum StringMatch")

theorem rt_StringMatch (v : StringMatch) : decodeStringMatch (encodeStringMatch v) = .ok v := by
  cases v <;> rfl

theorem encodeStringMatch_ne_null (v : StringMatch) : encodeStringMatch v ≠ .null := by
  cases v <;> simp [encodeStringMatch]

/-- `Percent`: a newtype over `f32`; serde serializes the inner float
directly, so a non-finite value hits serde_json's null path. -/
structure Percent where
  val : F32
deriving DecidableEq

def Percent.isFinite (p : Percent) : Bool := p.val.isFinite

def encodePercent (p : Percent) : Json := encodeF32 p.val

def decodePercent : Json → Dec Percent
  | .fnum x => .ok ⟨x⟩
  | _ => .error (.typeMismatch "float")

theorem rt_Percent (p : Percent) (h : p.isFinite = true) :
    decodePercent (encodePercent p) = .ok p := by
  simp only [Percent.isFinite] at h
  simp [encodePercent, encodeF32, h, decodePercent]

theorem encodePercent_ne_null (p : Percent) (h : p.isFinite = true) :
    encodePercent p ≠ .null := by
  simp only [Percent.isFinite] at h
  simp [encodePercent, encodeF32, h]

/-- Optional-`Percent` fields round-trip when the wrapped value, if any,
is finite. -/
theorem decodeOptVal_encodeOpt_percent (v : Option Percent)
    (h : Option.all Percent.isFinite v = true) :
    decodeOptVal decodePercent (some (encodeOpt encodePercent v)) = .ok v := by
  refine decodeOptVal_encodeOpt_of v (fun p hp => rt_Percent p ?_)
    (fun p hp => encodePercent_ne_null p ?_) <;> simpa [Option.all, hp] using h

structure Delegate where
  name : Option String
  namespace_ : Option String
deriving DecidableEq

def encodeDelegate (d : Delegate) : Json :=
  .obj [("name", encodeOpt encodeString d.name),
        ("namespace", encodeOpt encodeString d.namespace_)]

def decodeDelegate : Json → Dec Delegate
  | .obj kvs => do
      let n ← optField kvs "name" decodeString
      let ns ← optField kvs "namespace" decodeString
      pure ⟨n, ns⟩
  | _ => .error (.typeMismatch "struct Delegate")

theorem rt_Delegate (d : Delegate) : decodeDelegate (encodeDelegate d) = .ok d := by
  simp [encodeDelegate, decodeDelegate, optField, List.lookup,
    decodeOptVal_encodeOpt decodeString_encodeString encodeString_ne_null]

theorem encodeDelegate_ne_null (d : Delegate) : encodeDelegate d ≠ .null := by
  simp [encodeDelegate]

structure Destination where
  host : String
  subset : Option String
  port : Option PortSelector
deriving DecidableEq

def encodeDestination (d : Destination) : Json :=
  .obj [("host", encodeString d.host),
        ("subset", encodeOpt encodeString d.subset),
        ("port", encodeOpt encodePortSelector d.port)]

def decodeDestination : Json → Dec Destination
  | .obj kvs => do
      let h ← reqField kvs "host" decodeString
      let s ← optField kvs "subset" decodeString
      let p ← optField kvs "port" decodePortSelector
      pure ⟨h, s, p⟩
  | _ => .error (.typeMismatch "struct Destination")

theorem rt_Destination (d : Destination) : decodeDestination (encodeDestination d) = .ok d := by
  simp [encodeDestination, decodeDestination, reqField, optField, decodeReqVal, List.lookup,
    decodeString_encodeString,
    decodeOptVal_encodeOpt decodeString_encodeString encodeString_ne_null,
    decodeOptVal_encodeOpt rt_PortSelector encodePortSelector_ne_null]

theorem encodeDestination_ne_null (d : Destination) : encodeDestination d ≠ .null := by
  simp [encodeDestination]

structure HeaderOperations where
  set : Option (List (String × String))
  add : Option (List (String × String))
  remove : Option (List String)
deriving DecidableEq

def encodeHeaderOperations (h : HeaderOperations) : Json :=
  .obj [("set", encodeOpt (encodeStrMap encodeString) h.set),
        ("add", encodeOpt (encodeStrMap encodeString) h.add),
        ("remove", encodeOpt (encodeList encodeString) h.remove)]

def decodeHeaderOperations : Json → Dec HeaderOperations
  | .obj kvs => do
      let s ← optField kvs "set" (decodeStrMap decodeString)
      let a ← optField kvs "add" (decodeStrMap decodeString)
      let r ← optField kvs "remove" (decodeList decodeString)
      pure ⟨s, a, r⟩
  | _ => .error (.typeMismatch "struct HeaderOperations")

theorem rt_HeaderOperations (h : HeaderOperations) :
    decodeHeaderOperations (encodeHeaderOperations h) = .ok h := by
  simp [encodeHeaderOperations, decodeHeaderOperations, optField, List.lookup,
    decodeOptVal_encodeOpt (decodeStrMap_encodeStrMap decodeString_encodeString) (encodeStrMap_ne_null _),
    decodeOptVal_encodeOpt (decodeList_encodeList decodeString_encodeString) (encodeList_ne_null _)]

theorem encodeHeaderOperations_ne_null (h : HeaderOperations) :
    encodeHeaderOperations h ≠ .null := by
  simp [encodeHeaderOperations]

structure Headers where
  request : Option HeaderOperations
  response : Option HeaderOperations
deriving DecidableEq

def encodeHeaders (h : Headers) : Json :=
  .obj [("request", encodeOpt encodeHeaderOperations h.request),
        ("response", encodeOpt encodeHeaderOperations h.response)]

def decodeHeaders : Json → Dec Headers
  | .obj kvs => do
      let rq ← optField kvs "request" decodeHeaderOperations
      let rs ← optField kvs "response" decodeHeaderOperations
      pure ⟨rq, rs⟩
  | _ => .error (.typeMismatch "struct Headers")

theorem rt_Headers (h : Headers) : decodeHeaders (encodeHeaders h) = .ok h := by
  simp [encodeHeaders, decodeHeaders, optField, List.lookup,
    decodeOptVal_encodeOpt rt_HeaderOperations encodeHeaderOperations_ne_null]

theorem encodeHeaders_ne_null (h : Headers) : encodeHeaders h ≠ .null := by
  simp [encodeHeaders]

structure RouteDestination where
  destination : Destination
  weight : Option Int
deriving DecidableEq

def encodeRouteDestination (r : RouteDestination) : Json :=
  .obj [("destination", encodeDestination r.destination),
        ("weight", encodeOpt encodeInt r.weight)]

def decodeRouteDestination : Json → Dec RouteDestination
  | .obj kvs => do
      let d ← reqField kvs "destination" decodeDestination
      let w ← optField kvs "weight" decodeInt
      pure ⟨d, w⟩
  | _ => .error (.typeMismatch "struct RouteDestination")

theorem rt_RouteDestination (r : RouteDestination) :
    decodeRouteDestination (encodeRouteDestination r) = .ok r := by
  simp [encodeRouteDestination, decodeRouteDestination, reqField, optField, decodeReqVal,
    List.lookup, rt_Destination,
    decodeOptVal_encodeOpt decodeInt_encodeInt encodeInt_ne_null]

theorem encodeRouteDestination_ne_null (r : RouteDestination) :
    encodeRouteDestination r ≠ .null := by
  simp [encodeRouteDestination]

structure HttpRouteDestination where
  destination : Destination
  weight : Option Int
  headers : Option Headers
deriving DecidableEq

def encodeHttpRouteDestination (r : HttpRouteDestination) : Json :=
  .obj [("destination", encodeDestination r.destination),
        ("weight", encodeOpt encodeInt r.weight),
        ("headers", encodeOpt encodeHeaders r.headers)]

def decodeHttpRouteDestination : Json → Dec HttpRouteDestination
  | .obj kvs => do
      let d ← reqField kvs "destination" decodeDestination
      let w ← optField kvs "weight" decodeInt
      let h ← optField kvs "headers" decodeHeaders
      pure ⟨d, w, h⟩
  | _ => .error (.typeMismatch "struct HttpRouteDestination")

theorem rt_HttpRouteDestination (r : HttpRouteDestination) :
    decodeHttpRouteDestination (encodeHttpRouteDestination r) = .ok r := by
  simp [encodeHttpRouteDestination, decodeHttpRouteDestination, reqField, optField,
    decodeReqVal, List.lookup, rt_Destination,
    decodeOptVal_encodeOpt decodeInt_encodeInt encodeInt_ne_null,
    decodeOptVal_encodeOpt rt_Headers encodeHeaders_ne_null]

theorem encodeHttpRouteDestination_ne_null (r : HttpRouteDestination) :
    encodeHttpRouteDestination r ≠ .null := by
  simp [encodeHttpRouteDestination]

structure L4MatchAttributes where
  destinationSubnets : Option (List String)
  port : Option Int
  sourceLabels : Option (List (String × String))
  gateways : Option (List String)
  sourceNamespace : Option String
deriving DecidableEq

def encodeL4MatchAttributes (m : L4MatchAttributes) : Json :=
  .obj [("destinationSubnets", encodeOpt (encodeList encodeString) m.destinationSubnets),
        ("port", encodeOpt encodeInt m.port),
        ("sourceLabels", encodeOpt (encodeStrMap encodeString) m.sourceLabels),
        ("gateways", encodeOpt (encodeList encodeString) m.gateways),
        ("sourceNamespace", encodeOpt encodeString m.sourceNamespace)]

def decodeL4MatchAttributes : Json → Dec L4MatchAttributes
  | .obj kvs => do
      let ds ← optField kvs "destinationSubnets" (decodeList decodeString)
      let p ← optField kvs "port" decodeInt
      let sl ← optField kvs "sourceLabels" (decodeStrMap decodeString)
      let g ← optField kvs "gateways" (decodeList decodeString)
      let sn ← optField kvs "sourceNamespace" decodeString
      pure ⟨ds, p, sl, g, sn⟩
  | _ => .error (.typeMismatch "struct L4MatchAttributes")

theorem rt_L4MatchAttributes (m : L4MatchAttributes) :
    decodeL4MatchAttributes (encodeL4MatchAttributes m) = .ok m := by
  simp [encodeL4MatchAttributes, decodeL4MatchAttributes, optField, List.lookup,
    decodeOptVal_encodeOpt (decodeList_encodeList decodeString_encodeString) (encodeList_ne_null _),
    decodeOptVal_encodeOpt decodeInt_encodeInt encodeInt_ne_null,
    decodeOptVal_encodeOpt (decodeStrMap_encodeStrMap decodeString_encodeString) (encodeStrMap_ne_null _),
    decodeOptVal_encodeOpt decodeString_encodeString encodeString_ne_null]

theorem encodeL4MatchAttributes_ne_null (m : L4MatchAttributes) :
    encodeL4MatchAttributes m ≠ .null := by
  simp [encodeL4MatchAttributes]

/-- `TlsMatchAttribures` (sic, virtual_service.rs): `sniHosts` is
required; `gateways` here is `Option<String>`, a single string, unlike
`L4MatchAttributes.gateways`. -/
structure TlsMatchAttribures where
  sniHosts : List String
  destinationSubnets : Option (List String)
  port : Option Nat
  sourceLabels : Option (List (String × String))
  gateways : Option String
  sourceNamespace : Option String
deriving DecidableEq

def encodeTlsMatchAttribures (m : TlsMatchAttribures) : Json :=
  .obj [("sniHosts", encodeList encodeString m.sniHosts),
        ("destinationSubnets", encodeOpt (encodeList encodeString) m.destinationSubnets),
        ("port", encodeOpt encodeNat m.port),
        ("sourceLabels", encodeOpt (encodeStrMap encodeString) m.sourceLabels),
        ("gateways", encodeOpt encodeString m.gateways),
        ("sourceNamespace", encodeOpt encodeString m.sourceNamespace)]

def decodeTlsMatchAttribures : Json → Dec TlsMatchAttribures
  | .obj kvs => do
      let sh ← reqField kvs "sniHosts" (decodeList decodeString)
      let ds ← optField kvs "destinationSubnets" (decodeList decodeString)
      let p ← optField kvs "port" decodeNat
      let sl ← optField kvs "sourceLabels" (decodeStrMap decodeString)
      let g ← optField kvs "gateways" decodeString
      let sn ← optField kvs "sourceNamespace" decodeString
      pure ⟨sh, ds, p, sl, g, sn⟩
  | _ => .error (.typeMismatch "struct TlsMatchAttribures")

theorem rt_TlsMatchAttribures (m : TlsMatchAttribures) :
    decodeTlsMatchAttribures (encodeTlsMatchAttribures m) = .ok m := by
  simp [encodeTlsMatchAttribures, decodeTlsMatchAttribures, reqField, optField, decodeReqVal,
    List.lookup, decodeList_encodeList decodeString_encodeString,
    decodeOptVal_encodeOpt (decodeList_encodeList decodeString_encodeString) (encodeList_ne_null _),
    decodeOptVal_encodeOpt decodeNat_encodeNat encodeNat_ne_null,
    decodeOptVal_encodeOpt (decodeStrMap_encodeStrMap decodeString_encodeString) (encodeStrMap_ne_null _),
    decodeOptVal_encodeOpt decodeString_encodeString encodeString_ne_null]

theorem encodeTlsMatchAttribures_ne_null (m : TlsMatchAttribures) :
    encodeTlsMatchAttribures m ≠ .null := by
  simp [encodeTlsMatchAttribures]

/-- `TlsRoute`: `match` (a raw identifier in the source) is required. -/
structure TlsRoute where
  match_ : List TlsMatchAttribures
  route : Option (List RouteDestination)
deriving DecidableEq

def encodeTlsRoute (r : TlsRoute) : Json :=
  .obj [("match", encodeList encodeTlsMatchAttribures r.match_),
        ("route", encodeOpt (encodeList encodeRouteDestination) r.route)]

def decodeTlsRoute : Json → Dec TlsRoute
  | .obj kvs => do
      let m ← reqField kvs "match" (decodeList decodeTlsMatchAttribures)
      let ro ← optField kvs "route" (decodeList decodeRouteDestination)
      pure ⟨m, ro⟩
  | _ => .error (.typeMismatch "struct TlsRoute")

theorem rt_TlsRoute (r : TlsRoute) : decodeTlsRoute (encodeTlsRoute r) = .ok r := by
  simp [encodeTlsRoute, decodeTlsRoute, reqField, optField, decodeReqVal, List.lookup,
    decodeList_encodeList rt_TlsMatchAttribures,
    decodeOptVal_encodeOpt (decodeList_encodeList rt_RouteDestination) (encodeList_ne_null _)]

theorem encodeTlsRoute_ne_null (r : TlsRoute) : encodeTlsRoute r ≠ .null := by
  simp [encodeTlsRoute]

structure TcpRoute where
  match_ : Option (List L4MatchAttributes)
  route : Option (List RouteDestination)
deriving DecidableEq

def encodeTcpRoute (r : TcpRoute) : Json :=
  .obj [("match", encodeOpt (encodeList encodeL4MatchAttributes) r.match_),
        ("route", encodeOpt (encodeList encodeRouteDestination) r.route)]

def decodeTcpRoute : Json → Dec TcpRoute
  | .obj kvs => do
      let m ← optField kvs "match" (decodeList decodeL4MatchAttributes)
      let ro ← optField kvs "route" (decodeList decodeRouteDestination)
      pure ⟨m, ro⟩
  | _ => .error (.typeMismatch "struct TcpRoute")

theorem rt_TcpRoute (r : TcpRoute) : decodeTcpRoute (encodeTcpRoute r) = .ok r := by
  simp [encodeTcpRoute, decodeTcpRoute, optField, List.lookup,
    decodeOptVal_encodeOpt (decodeList_encodeList rt_L4MatchAttributes) (encodeList_ne_null _),
    decodeOptVal_encodeOpt (decodeList_encodeList rt_RouteDestination) (encodeList_ne_null _)]

theorem encodeTcpRoute_ne_null (r : TcpRoute) : encodeTcpRoute r ≠ .null := by
  simp [encodeTcpRoute]

inductive RedirectPortSelection where
  | FromProtocolDefault
  | FromRequestPort
deriving DecidableEq

def encodeRedirectPortSelection : RedirectPortSelection → Json
  | .FromProtocolDefault => .str "FROM_PROTOCOL_DEFAULT"
  | .FromRequestPort => .str "FROM_REQUEST_PORT"

def decodeRedirectPortSelection : Json → Dec RedirectPortSelection
  | .str s =>
    if s = "FROM_PROTOCOL_DEFAULT" then .ok .FromProtocolDefault
    else if s = "FROM_REQUEST_PORT" then .ok .FromRequestPort
    else .error (.unknownVariant "RedirectPortSelection" s)
  | _ => .error (.typeMismatch "enum RedirectPortSelection")

theorem rt_RedirectPortSelection (v : RedirectPortSelection) :
    decodeRedirectPortSelection (encodeRedirectPortSelection v) = .ok v := by
  cases v <;> rfl

theorem encodeRedirectPortSelection_ne_null (v : RedirectPortSelection) :
    encodeRedirectPortSelection v ≠ .null := by
  cases v <;> simp [encodeRedirectPortSelection]

structure HttpRedirect where
  uri : Option String
  authority : Option String
  port : Option Nat
  derivePort : Option RedirectPortSelection
  scheme : Option String
  redirectCode : Option Int
deriving DecidableEq

def encodeHttpRedirect (r : HttpRedirect) : Json :=
  .obj [("uri", encodeOpt encodeString r.uri),
        ("authority", encodeOpt encodeString r.authority),
        ("port", encodeOpt encodeNat r.port),
        ("derivePort", encodeOpt encodeRedirectPortSelection r.derivePort),
        ("scheme", encodeOpt encodeString r.scheme),
        ("redirectCode", encodeOpt encodeInt r.redirectCode)]

def decodeHttpRedirect : Json → Dec HttpRedirect
  | .obj kvs => do
      let u ← optField kvs "uri" decodeString
      let a ← optField kvs "authority" decodeString
      let p ← optField kvs "port" decodeNat
      let dp ← optField kvs "derivePort" decodeRedirectPortSelection
      let sc ← optField kvs "scheme" decodeString
      let rc ← optField kvs "redirectCode" decodeInt
      pure ⟨u, a, p, dp, sc, rc⟩
  | _ => .error (.typeMismatch "struct HttpRedirect")

theorem rt_HttpRedirect (r : HttpRedirect) : decodeHttpRedirect (encodeHttpRedirect r) = .ok r := by
  simp [encodeHttpRedirect, decodeHttpRedirect, optField, List.lookup,
    decodeOptVal_encodeOpt decodeString_encodeString encodeString_ne_null,
    decodeOptVal_encodeOpt decodeNat_encodeNat encodeNat_ne_null,
    decodeOptVal_encodeOpt rt_RedirectPortSelection encodeRedirectPortSelection_ne_null,
    decodeOptVal_encodeOpt decodeInt_encodeInt encodeInt_ne_null]

theorem encodeHttpRedirect_ne_null (r : HttpRedirect) : encodeHttpRedirect r ≠ .null := by
  simp [encodeHttpRedirect]

structure HttpRewrite where
  uri : Option String
  authority : Option String
deriving DecidableEq

def encodeHttpRewrite (r : HttpRewrite) : Json :=
  .obj [("uri", encodeOpt encodeString r.uri),
        ("authority", encodeOpt encodeString r.authority)]

def decodeHttpRewrite : Json → Dec HttpRewrite
  | .obj kvs => do
      let u ← optField kvs "uri" decodeString
      let a ← optField kvs "authority" decodeString
      pure ⟨u, a⟩
  | _ => .error (.typeMismatch "struct HttpRewrite")

theorem rt_HttpRewrite (r : HttpRewrite) : decodeHttpRewrite (encodeHttpRewrite r) = .ok r := by
  simp [encodeHttpRewrite, decodeHttpRewrite, optField, List.lookup,
    decodeOptVal_encodeOpt decodeString_encodeString encodeString_ne_null]

theorem encodeHttpRewrite_ne_null (r : HttpRewrite) : encodeHttpRewrite r ≠ .null := by
  simp [encodeHttpRewrite]

structure HttpRetry where
  attempts : Int
  perTryTimeout : Option Duration
  retryOn : Option String
  retryRemoteLocalities : Option Bool
deriving DecidableEq

def encodeHttpRetry (r : HttpRetry) : Json :=
  .obj [("attempts", encodeInt r.attempts),
        ("perTryTimeout", encodeOpt encodeDuration r.perTryTimeout),
        ("retryOn", encodeOpt encodeString r.retryOn),
        ("retryRemoteLocalities", encodeOpt encodeBool r.retryRemoteLocalities)]

def decodeHttpRetry : Json → Dec HttpRetry
  | .obj kvs => do
      let a ← reqField kvs "attempts" decodeInt
      let pt ← optField kvs "perTryTimeout" decodeDuration
      let ro ← optField kvs "retryOn" decodeString
      let rl ← optField kvs "retryRemoteLocalities" decodeBool
      pure ⟨a, pt, ro, rl⟩
  | _ => .error (.typeMismatch "struct HttpRetry")

theorem rt_HttpRetry (r : HttpRetry) : decodeHttpRetry (encodeHttpRetry r) = .ok r := by
  simp [encodeHttpRetry, decodeHttpRetry, reqField, optField, decodeReqVal, List.lookup,
    decodeInt_encodeInt,
    decodeOptVal_encodeOpt decodeDuration_encodeDuration encodeDuration_ne_null,
    decodeOptVal_encodeOpt decodeString_encodeString encodeString_ne_null,
    decodeOptVal_encodeOpt decodeBool_encodeBool encodeBool_ne_null]

theorem encodeHttpRetry_ne_null (r : HttpRetry) : encodeHttpRetry r ≠ .null := by
  simp [encodeHttpRetry]

structure CorsPolicy where
  allowOrigins : Option (List StringMatch)
  allowMethods : Option (List String)
  allowHeaders : Option (List String)
  exposeHeaders : Option (List String)
  maxAge : Option Duration
  allowCredentials : Option Bool
deriving DecidableEq

def encodeCorsPolicy (c : CorsPolicy) : Json :=
  .obj [("allowOrigins", encodeOpt (encodeList encodeStringMatch) c.allowOrigins),
        ("allowMethods", encodeOpt (encodeList encodeString) c.allowMethods),
        ("allowHeaders", encodeOpt (encodeList encodeString) c.allowHeaders),
        ("exposeHeaders", encodeOpt (encodeList encodeString) c.exposeHeaders),
        ("maxAge", encodeOpt encodeDuration c.maxAge),
        ("allowCredentials", encodeOpt encodeBool c.allowCredentials)]

def decodeCorsPolicy : Json → Dec CorsPolicy
  | .obj kvs => do
      let ao ← optField kvs "allowOrigins" (decodeList decodeStringMatch)
      let am ← optField kvs "allowMethods" (decodeList decodeString)
      let ah ← optField kvs "allowHeaders" (decodeList decodeString)
      let eh ← optField kvs "exposeHeaders" (decodeList decodeString)
      let ma ← optField kvs "maxAge" decodeDuration
      let ac ← optField kvs "allowCredentials" decodeBool
      pure ⟨ao, am, ah, eh, ma, ac⟩
  | _ => .error (.typeMismatch "struct CorsPolicy")

theorem rt_CorsPolicy (c : CorsPolicy) : decodeCorsPolicy (encodeCorsPolicy c) = .ok c := by
  simp [encodeCorsPolicy, decodeCorsPolicy, optField, List.lookup,
    decodeOptVal_encodeOpt (decodeList_encodeList rt_StringMatch) (encodeList_ne_null _),
    decodeOptVal_encodeOpt (decodeList_encodeList decodeString_encodeString) (encodeList_ne_null _),
    decodeOptVal_encodeOpt decodeDuration_encodeDuration encodeDuration_ne_null,
    decodeOptVal_encodeOpt decodeBool_encodeBool encodeBool_ne_null]

theorem encodeCorsPolicy_ne_null (c : CorsPolicy) : encodeCorsPolicy c ≠ .null := by
  simp [encodeCorsPolicy]

structure FaultInjectionDelay where
  fixed_delay : Duration
  percentage : Option Percent
  percent : Option Int
deriving DecidableEq

def encodeFaultInjectionDelay (d : FaultInjectionDelay) : Json :=
  .obj [("fixedDelay", encodeDuration d.fixed_delay),
        ("percentage", encodeOpt encodePercent d.percentage),
        ("percent", encodeOpt encodeInt d.percent)]

def decodeFaultInjectionDelay : Json → Dec FaultInjectionDelay
  | .obj kvs => do
      let fd ← reqField kvs "fixedDelay" decodeDuration
      let pc ← optField kvs "percentage" decodePercent
      let p ← optField kvs "percent" decodeInt
      pure ⟨fd, pc, p⟩
  | _ => .error (.typeMismatch "struct FaultInjectionDelay")

/-- All float values of a `FaultInjectionDelay` are finite. -/
def FaultInjectionDelay.floatsFinite (d : FaultInjectionDelay) : Bool :=
  Option.all Percent.isFinite d.percentage

theorem rt_FaultInjectionDelay (d : FaultInjectionDelay) (h : d.floatsFinite = true) :
    decodeFaultInjectionDelay (encodeFaultInjectionDelay d) = .ok d := by
  simp only [FaultInjectionDelay.floatsFinite] at h
  simp [encodeFaultInjectionDelay, decodeFaultInjectionDelay, reqField, optField, decodeReqVal,
    List.lookup, decodeDuration_encodeDuration,
    decodeOptVal_encodeOpt_percent d.percentage h,
    decodeOptVal_encodeOpt decodeInt_encodeInt encodeInt_ne_null]

theorem encodeFaultInjectionDelay_ne_null (d : FaultInjectionDelay) :
    encodeFaultInjectionDelay d ≠ .null := by
  simp [encodeFaultInjectionDelay]

structure FaultInjectionAbort where
  http_status : Int
  percentage : Option Percent
deriving DecidableEq

def encodeFaultInjectionAbort (a : FaultInjectionAbort) : Json :=
  .obj [("httpStatus", encodeInt a.http_status),
        ("percentage", encodeOpt encodePercent a.percentage)]

def decodeFaultInjectionAbort : Json → Dec FaultInjectionAbort
  | .obj kvs => do
      let hs ← reqField kvs "httpStatus" decodeInt
      let pc ← optField kvs "percentage" decodePercent
      pure ⟨hs, pc⟩
  | _ => .error (.typeMismatch "struct FaultInjectionAbort")

/-- All float values of a `FaultInjectionAbort` are finite. -/
def FaultInjectionAbort.floatsFinite (a : FaultInjectionAbort) : Bool :=
  Option.all Percent.isFinite a.percentage

theorem rt_FaultInjectionAbort (a : FaultInjectionAbort) (h : a.floatsFinite = true) :
    decodeFaultInjectionAbort (encodeFaultInjectionAbort a) = .ok a := by
  simp only [FaultInjectionAbort.floatsFinite] at h
  simp [encodeFaultInjectionAbort, decodeFaultInjectionAbort, reqField, optField, decodeReqVal,
    List.lookup, decodeInt_encodeInt,
    decodeOptVal_encodeOpt_percent a.percentage h]

theorem encodeFaultInjectionAbort_ne_null (a : FaultInjectionAbort) :
    encodeFaultInjectionAbort a ≠ .null := by
  simp [encodeFaultInjectionAbort]

structure HttpFaultInjection where
  delay : Option FaultInjectionDelay
  abort : Option FaultInjectionAbort
deriving DecidableEq

def encodeHttpFaultInjection (f : HttpFaultInjection) : Json :=
  .obj [("delay", encodeOpt encodeFaultInjectionDelay f.delay),
        ("abort", encodeOpt encodeFaultInjectionAbort f.abort)]

def decodeHttpFaultInjection : Json → Dec HttpFaultInjection
  | .obj kvs => do
      let d ← optField kvs "delay" decodeFaultInjectionDelay
      let a ← optField kvs "abort" decodeFaultInjectionAbort
      pure ⟨d, a⟩
  | _ => .error (.typeMismatch "struct HttpFaultInjection")

/-- All float values of an `HttpFaultInjection` are finite. -/
def HttpFaultInjection.floatsFinite (f : HttpFaultInjection) : Bool :=
  Option.all FaultInjectionDelay.floatsFinite f.delay &&
  Option.all FaultInjectionAbort.floatsFinite f.abort

theorem rt_HttpFaultInjection (f : HttpFaultInjection) (h : f.floatsFinite = true) :
    decodeHttpFaultInjection (encodeHttpFaultInjection f) = .ok f := by
  simp only [HttpFaultInjection.floatsFinite, Bool.and_eq_true] at h
  simp [encodeHttpFaultInjection, decodeHttpFaultInjection, optField, List.lookup,
    decodeOptVal_encodeOpt_of f.delay
      (fun d hd => rt_FaultInjectionDelay d (by rw [hd] at h; exact h.1))
      (fun d hd => encodeFaultInjectionDelay_ne_null d),
    decodeOptVal_encodeOpt_of f.abort
      (fun a ha => rt_FaultInjectionAbort a (by rw [ha] at h; exact h.2))
      (fun a ha => encodeFaultInjectionAbort_ne_null a)]

theorem encodeHttpFaultInjection_ne_null (f : HttpFaultInjection) :
    encodeHttpFaultInjection f ≠ .null := by
  simp [encodeHttpFaultInjection]

structure HttpMatchRequest where
  name : Option String
  uri : Option StringMatch
  scheme : Option StringMatch
  method : Option StringMatch
  authority : Option StringMatch
  headers : Option (List (String × StringMatch))
  port : Option Int
  sourceLabels : Option (List (String × String))
  gateways : Option (List String)
  queryParams : Option (List (String × StringMatch))
  ignoreUriCase : Option Bool
  withoutHeaders : Option (List (String × StringMatch))
  sourceNamespace : Option String
deriving DecidableEq

def encodeHttpMatchRequest (m : HttpMatchRequest) : Json :=
  .obj [("name", encodeOpt encodeString m.name),
        ("uri", encodeOpt encodeStringMatch m.uri),
        ("scheme", encodeOpt encodeStringMatch m.scheme),
        ("method", encodeOpt encodeStringMatch m.method),
        ("authority", encodeOpt encodeStringMatch m.authority),
        ("headers", encodeOpt (encodeStrMap encodeStringMatch) m.headers),
        ("port", encodeOpt encodeInt m.port),
        ("sourceLabels", encodeOpt (encodeStrMap encodeString) m.sourceLabels),
        ("gateways", encodeOpt (encodeList encodeString) m.gateways),
        ("queryParams", encodeOpt (encodeStrMap encodeStringMatch) m.queryParams),
        ("ignoreUriCase", encodeOpt encodeBool m.ignoreUriCase),
        ("withoutHeaders", encodeOpt (encodeStrMap encodeStringMatch) m.withoutHeaders),
        ("sourceNamespace", encodeOpt encodeString m.sourceNamespace)]

def decodeHttpMatchRequest : Json → Dec HttpMatchRequest
  | .obj kvs => do
      let n ← optField kvs "name" decodeString
      let u ← optField kvs "uri" decodeStringMatch
      let sc ← optField kvs "scheme" decodeStringMatch
      let me ← optField kvs "method" decodeStringMatch
      let au ← optField kvs "authority" decodeStringMatch
      let he ← optField kvs "headers" (decodeStrMap decodeStringMatch)
      let po ← optField kvs "port" decodeInt
      let sl ← optField kvs "sourceLabels" (decodeStrMap decodeString)
      let gw ← optField kvs "gateways" (decodeList decodeString)
      let qp ← optField kvs "queryParams" (decodeStrMap decodeStringMatch)
      let ig ← optField kvs "ignoreUriCase" decodeBool
      let wh ← optField kvs "withoutHeaders" (decodeStrMap decodeStringMatch)
      let sn ← optField kvs "sourceNamespace" decodeString
      pure ⟨n, u, sc, me, au, he, po, sl, gw, qp, ig, wh, sn⟩
  | _ => .error (.typeMismatch "struct HttpMatchRequest")

theorem rt_HttpMatchRequest (m : HttpMatchRequest) :
    decodeHttpMatchRequest (encodeHttpMatchRequest m) = .ok m := by
  simp [encodeHttpMatchRequest, decodeHttpMatchRequest, optField, List.lookup,
    decodeOptVal_encodeOpt decodeString_encodeString encodeString_ne_null,
    decodeOptVal_encodeOpt rt_StringMatch encodeStringMatch_ne_null,
    decodeOptVal_encodeOpt (decodeStrMap_encodeStrMap rt_StringMatch) (encodeStrMap_ne_null _),
    decodeOptVal_encodeOpt decodeInt_encodeInt encodeInt_ne_null,
    decodeOptVal_encodeOpt (decodeStrMap_encodeStrMap decodeString_encodeString) (encodeStrMap_ne_null _),
    decodeOptVal_encodeOpt (decodeList_encodeList decodeString_encodeString) (encodeList_ne_null _),
    decodeOptVal_encodeOpt decodeBool_encodeBool encodeBool_ne_null]

theorem encodeHttpMatchRequest_ne_null (m : HttpMatchRequest) :
    encodeHttpMatchRequest m ≠ .null := by
  simp [encodeHttpMatchRequest]

structure HttpRoute where
  name : Option String
  match_ : Option (List HttpMatchRequest)
  route : Option (List HttpRouteDestination)
  redirect : Option HttpRedirect
  delegate : Option Delegate
  rewrite : Option HttpRewrite
  timeout : Option Duration
  retries : Option HttpRetry
  fault : Option HttpFaultInjection
  mirror : Option Destination
  mirrorPercentage : Option Percent
  corsPolicy : Option CorsPolicy
  headers : Option Headers
  mirrorPercent : Option Int
deriving DecidableEq

def encodeHttpRoute (r : HttpRoute) : Json :=
  .obj [("name", encodeOpt encodeString r.name),
        ("match", encodeOpt (encodeList encodeHttpMatchRequest) r.match_),
        ("route", encodeOpt (encodeList encodeHttpRouteDestination) r.route),
        ("redirect", encodeOpt encodeHttpRedirect r.redirect),
        ("delegate", encodeOpt encodeDelegate r.delegate),
        ("rewrite", encodeOpt encodeHttpRewrite r.rewrite),
        ("timeout", encodeOpt encodeDuration r.timeout),
        ("retries", encodeOpt encodeHttpRetry r.retries),
        ("fault", encodeOpt encodeHttpFaultInjection r.fault),
        ("mirror", encodeOpt encodeDestination r.mirror),
        ("mirrorPercentage", encodeOpt encodePercent r.mirrorPercentage),
        ("corsPolicy", encodeOpt encodeCorsPolicy r.corsPolicy),
        ("headers", encodeOpt encodeHeaders r.headers),
        ("mirrorPercent", encodeOpt encodeInt r.mirrorPercent)]

def decodeHttpRoute : Json → Dec HttpRoute
  | .obj kvs => do
      let n ← optField kvs "name" decodeString
      let ma ← optField kvs "match" (decodeList decodeHttpMatchRequest)
      let ro ← optField kvs "route" (decodeList decodeHttpRouteDestination)
      let re ← optField kvs "redirect" decodeHttpRedirect
      let de ← optField kvs "delegate" decodeDelegate
      let rw ← optField kvs "rewrite" decodeHttpRewrite
      let ti ← optField kvs "timeout" decodeDuration
      let rt ← optField kvs "retries" decodeHttpRetry
      let fa ← optField kvs "fault" decodeHttpFaultInjection
      let mi ← optField kvs "mirror" decodeDestination
      let mp ← optField kvs "mirrorPercentage" decodePercent
      let co ← optField kvs "corsPolicy" decodeCorsPolicy
      let he ← optField kvs "headers" decodeHeaders
      let mpc ← optField kvs "mirrorPercent" decodeInt
      pure ⟨n, ma, ro, re, de, rw, ti, rt, fa, mi, mp, co, he, mpc⟩
  | _ => .error (.typeMismatch "struct HttpRoute")

/-- All float values of an `HttpRoute` (its fault-injection percentages
and its mirror percentage) are finite. -/
def HttpRoute.floatsFinite (r : HttpRoute) : Bool :=
  Option.all HttpFaultInjection.floatsFinite r.fault &&
  Option.all Percent.isFinite r.mirrorPercentage

theorem rt_HttpRoute (r : HttpRoute) (h : r.floatsFinite = true) :
    decodeHttpRoute (encodeHttpRoute r) = .ok r := by
  simp only [HttpRoute.floatsFinite, Bool.and_eq_true] at h
  simp [encodeHttpRoute, decodeHttpRoute, optField, List.lookup,
    decodeOptVal_encodeOpt decodeString_encodeString encodeString_ne_null,
    decodeOptVal_encodeOpt (decodeList_encodeList rt_HttpMatchRequest) (encodeList_ne_null _),
    decodeOptVal_encodeOpt (decodeList_encodeList rt_HttpRouteDestination) (encodeList_ne_null _),
    decodeOptVal_encodeOpt rt_HttpRedirect encodeHttpRedirect_ne_null,
    decodeOptVal_encodeOpt rt_Delegate encodeDelegate_ne_null,
    decodeOptVal_encodeOpt rt_HttpRewrite encodeHttpRewrite_ne_null,
    decodeOptVal_encodeOpt decodeDuration_encodeDuration encodeDuration_ne_null,
    decodeOptVal_encodeOpt rt_HttpRetry encodeHttpRetry_ne_null,
    decodeOptVal_encodeOpt_of r.fault
      (fun f hf => rt_HttpFaultInjection f (by rw [hf] at h; exact h.1))
      (fun f hf => encodeHttpFaultInjection_ne_null f),
    decodeOptVal_encodeOpt rt_Destination encodeDestination_ne_null,
    decodeOptVal_encodeOpt_percent r.mirrorPercentage h.2,
    decodeOptVal_encodeOpt rt_CorsPolicy encodeCorsPolicy_ne_null,
    decodeOptVal_encodeOpt rt_Headers encodeHeaders_ne_null,
    decodeOptVal_encodeOpt decodeInt_encodeInt encodeInt_ne_null]

theorem encodeHttpRoute_ne_null (r : HttpRoute) : encodeHttpRoute r ≠ .null := by
  simp [encodeHttpRoute]

/-- `VirtualServiceSpec` (virtual_service.rs lines 121-158): every field
optional, no skip attribute (absent fields emit null); note the source
field is literally spelled `exportTo` here (no rename needed). -/
structure VirtualServiceSpec where
  hosts : Option (List String)
  gateways : Option (List String)
  http : Option (List HttpRoute)
  tls : Option (List TlsRoute)
  tcp : Option (List TcpRoute)
  exportTo : Option (List String)
deriving DecidableEq

def encodeVirtualServiceSpec (s : VirtualServiceSpec) : Json :=
  .obj [("hosts", encodeOpt (encodeList encodeString) s.hosts),
        ("gateways", encodeOpt (encodeList encodeString) s.gateways),
        ("http", encodeOpt (encodeList encodeHttpRoute) s.http),
        ("tls", encodeOpt (encodeList encodeTlsRoute) s.tls),
        ("tcp", encodeOpt (encodeList encodeTcpRoute) s.tcp),
        ("exportTo", encodeOpt (encodeList encodeString) s.exportTo)]

def decodeVirtualServiceSpec : Json → Dec VirtualServiceSpec
  | .obj kvs => do
      let h ← optField kvs "hosts" (decodeList decodeString)
      let g ← optField kvs "gateways" (decodeList decodeString)
      let ht ← optField kvs "http" (decodeList decodeHttpRoute)
      let tl ← optField kvs "tls" (decodeList decodeTlsRoute)
      let tc ← optField kvs "tcp" (decodeList decodeTcpRoute)
      let et ← optField kvs "exportTo" (decodeList decodeString)
      pure ⟨h, g, ht, tl, tc, et⟩
  | _ => .error (.typeMismatch "struct VirtualServiceSpec")

/-- All float values of a `VirtualServiceSpec` (they live only in its
HTTP routes) are finite. -/
def VirtualServiceSpec.floatsFinite (s : VirtualServiceSpec) : Bool :=
  Option.all (fun rs => rs.all HttpRoute.floatsFinite) s.http

theorem rt_VirtualServiceSpec (s : VirtualServiceSpec) (h : s.floatsFinite = true) :
    decodeVirtualServiceSpec (encodeVirtualServiceSpec s) = .ok s := by
  simp only [VirtualServiceSpec.floatsFinite] at h
  simp [encodeVirtualServiceSpec, decodeVirtualServiceSpec, optField, List.lookup,
    decodeOptVal_encodeOpt (decodeList_encodeList decodeString_encodeString) (encodeList_ne_null _),
    decodeOptVal_encodeOpt_of s.http
      (fun rs hrs => decodeList_encodeList_of rs (fun r hr =>
        rt_HttpRoute r (by rw [hrs] at h
                           exact (List.all_eq_true.mp h) r hr)))
      (fun rs hrs => encodeList_ne_null _ _),
    decodeOptVal_encodeOpt (decodeList_encodeList rt_TlsRoute) (encodeList_ne_null _),
    decodeOptVal_encodeOpt (decodeList_encodeList rt_TcpRoute) (encodeList_ne_null _)]

theorem encodeVirtualServiceSpec_ne_null (s : VirtualServiceSpec) :
    encodeVirtualServiceSpec s ≠ .null := by
  simp [encodeVirtualServiceSpec]

/-- `VirtualService` (virtual_service.rs lines 5-24): like
DestinationRule, no skip attribute, and the derived Serialize emits no
`apiVersion`/`kind` members. -/
structure VirtualService where
  metadata : ObjectMeta
  spec : Option VirtualServiceSpec
  status : Option Unit
deriving DecidableEq

def VirtualService.API_VERSION : String := "networking.istio.io/v1beta1"

def VirtualService.KIND : String := "VirtualService"

def VirtualService.URL_PATH_SEGMENT : String := "virtualservices"

def encodeVirtualService (r : VirtualService) : Json :=
  .obj [("metadata", encodeObjectMeta r.metadata),
        ("spec", encodeOpt encodeVirtualServiceSpec r.spec),
        ("status", encodeOpt encodeUnit r.status)]

def decodeVirtualService : Json → Dec VirtualService
  | .obj kvs => do
      let m ← reqField kvs "metadata" decodeObjectMeta
      let sp ← optField kvs "spec" decodeVirtualServiceSpec
      let st ← optField kvs "status" decodeUnitVal
      pure ⟨m, sp, st⟩
  | _ => .error (.typeMismatch "struct VirtualService")

/-- All float values of a `VirtualService` are finite. -/
def VirtualService.floatsFinite (r : VirtualService) : Bool :=
  Option.all VirtualServiceSpec.floatsFinite r.spec

theorem rt_VirtualService (r : VirtualService) (h : r.status ≠ some ())
    (hf : r.floatsFinite = true) :
    decodeVirtualService (encodeVirtualService r) = .ok r := by
  obtain ⟨m, sp, st⟩ := r
  simp only [VirtualService.floatsFinite] at hf
  cases st with
  | some u => cases u; exact absurd rfl h
  | none =>
    simp [encodeVirtualService, decodeVirtualService, reqField, optField, decodeReqVal,
      List.lookup, rt_ObjectMeta, decodeOptVal_unit_none,
      decodeOptVal_encodeOpt_of sp
        (fun s hs => rt_VirtualServiceSpec s (by rw [hs] at hf; exact hf))
        (fun s hs => encodeVirtualServiceSpec_ne_null s)]

/-! Claim theorems. -/

/-- The wire object of spec test 6 / the DestinationRule doc example:
`{"host":"ratings.prod.svc.cluster.local","trafficPolicy":{"loadBalancer":{"simple":"LEAST_CONN"}}}`. -/
def wireDocExample : Json :=
  .obj [("host", .str "ratings.prod.svc.cluster.local"),
        ("trafficPolicy", .obj [("loadBalancer", .obj [("simple", .str "LEAST_CONN")])])]

/-- C1: decoding the documented wire object into `DestinationRuleSpec`
does NOT succeed: `LoadBalancerSettings` is an externally tagged enum,
so the decoder reads the first key `simple` as a Rust variant name and
fails with an unknown-variant error (the variant tags are `Simple` and
`ConsistentHash`, and `Simple`'s content would additionally require a
`localityLbSetting` member).  The struct's own doc comment displays this
exact YAML as decodable, so the code contradicts its documentation. -/
theorem C1_doc_example_decode_fails :
    decodeDestinationRuleSpec wireDocExample =
      .error (.unknownVariant "LoadBalancerSettings" "simple") := by
  rfl

/-- C2 counterexample: `TrafficPolicy` (a substructure of every modeled
DestinationRule) has no skip_serializing_none attribute, so encoding a
value whose five optional fields are all absent emits every key with an
explicit null — refuting the claim that absent optional fields are
always omitted. -/
theorem C2_absent_fields_emit_null :
    encodeTrafficPolicy ⟨none, none, none, none, none⟩ =
      .obj [("loadBalancer", .null), ("connectionPool", .null), ("outlierDetection", .null),
            ("tls", .null), ("portLevelSettings", .null)] := by
  rfl

/-- C2 amended: omission of absent optional fields happens exactly in
the structs annotated with `#[skip_serializing_none]` (the Gateway tree,
TCPSettings, HTTPSettings, UInt32Value); the structs without the
attribute (the DestinationRule and VirtualService trees) emit an
explicit null for every absent optional field. -/
theorem C2_omission_only_with_skip_attribute :
    (∀ s : TCPSettings, s.max_connections = none →
        Json.lookupKey "maxConnections" (encodeTCPSettings s) = none) ∧
    (∀ s : ServerTLSSettings, s.mode = none →
        Json.lookupKey "mode" (encodeServerTLSSettings s) = none) ∧
    (∀ s : Server, s.bind = none → Json.lookupKey "bind" (encodeServer s) = none) ∧
    (∀ tp : TrafficPolicy, tp.load_balancer = none →
        Json.lookupKey "loadBalancer" (encodeTrafficPolicy tp) = some .null) ∧
    (∀ s : VirtualServiceSpec, s.hosts = none →
        Json.lookupKey "hosts" (encodeVirtualServiceSpec s) = some .null) ∧
    (∀ s : ClientTLSSettings, s.sni = none →
        Json.lookupKey "sni" (encodeClientTLSSettings s) = some .null) := by
  refine ⟨?_, ?_, ?_, ?_, ?_, ?_⟩
  · intro s h
    simp [encodeTCPSettings, Json.lookupKey, h, List.append_assoc,
      lookup_skip_self, lookup_skip_ne, lookup_skip_self_nil, lookup_skip_ne_nil]
  · intro s h
    simp [encodeServerTLSSettings, Json.lookupKey, h, List.append_assoc,
      lookup_skip_self, lookup_skip_ne, lookup_skip_self_nil, lookup_skip_ne_nil]
  · intro s h
    simp [encodeServer, Json.lookupKey, h, List.lookup, List.append_assoc,
      lookup_skip_self, lookup_skip_ne, lookup_skip_self_nil, lookup_skip_ne_nil]
  · intro tp h
    simp [encodeTrafficPolicy, Json.lookupKey, h, List.lookup, encodeOpt]
  · intro s h
    simp [encodeVirtualServiceSpec, Json.lookupKey, h, List.lookup, encodeOpt]
  · intro s h
    simp [encodeClientTLSSettings, Json.lookupKey, h, List.lookup, encodeOpt]

/-- C2 witness: the amended omission/null behaviors at concrete values. -/
theorem C2_omission_only_with_skip_attribute_witness :
    Json.lookupKey "maxConnections" (encodeTCPSettings ⟨none, none, none⟩) = none ∧
    Json.lookupKey "loadBalancer" (encodeTrafficPolicy ⟨none, none, none, none, none⟩) =
      some .null :=
  ⟨C2_omission_only_with_skip_attribute.1 ⟨none, none, none⟩ rfl,
   C2_omission_only_with_skip_attribute.2.2.2.1 ⟨none, none, none, none, none⟩ rfl⟩

/-- C3: durations do NOT ride on `"30ms"`-style strings.  The source
uses `std::time::Duration` with the derived serde impls, whose wire form
is the struct `{"secs": u64, "nanos": u32}`; every duration string —
well-formed (`"30ms"`, `"0ms"`) or not (`"30"`) — is rejected with a
type error (not `InvalidDuration`).  The field doc comments
("format: 1h/1m/1s/1ms") promise the string grammar, so the code
contradicts its own documentation. -/
theorem C3_duration_wire_is_secs_nanos_struct :
    encodeDuration ⟨0, ⟨30000000, by norm_num⟩⟩ =
      .obj [("secs", .num 0), ("nanos", .num 30000000)] ∧
    decodeDuration (.str "30ms") = .error (.typeMismatch "struct Duration") ∧
    decodeDuration (.str "0ms") = .error (.typeMismatch "struct Duration") ∧
    decodeDuration (.str "30") = .error (.typeMismatch "struct Duration") ∧
    decodeDuration (.obj [("secs", .num 0), ("nanos", .num 30000000)]) =
      .ok ⟨0, ⟨30000000, by norm_num⟩⟩ := by
  refine ⟨rfl, rfl, rfl, rfl, ?_⟩
  rfl

/-- The quiet-NaN f32 bit pattern 0x7FC00000 (exponent bits all ones). -/
def nanF32 : F32 := ⟨2143289344⟩

/-- A `VirtualService` whose single HTTP route carries a NaN
`mirrorPercentage`. -/
def vsNanMirror : VirtualService :=
  ⟨⟨none, none⟩,
   some ⟨none, none,
         some [⟨none, none, none, none, none, none, none, none, none, none,
                some ⟨nanF32⟩, none, none, none⟩],
         none, none, none⟩,
   none⟩

/-- `vsNanMirror` after the wire round trip: the NaN percentage is gone. -/
def vsNanMirrorCollapsed : VirtualService :=
  ⟨⟨none, none⟩,
   some ⟨none, none,
         some [⟨none, none, none, none, none, none, none, none, none, none,
                none, none, none, none⟩],
         none, none, none⟩,
   none⟩

/-- C4 counterexample: the round-trip law fails on validly-constructed
values in two ways, both through serde_json's null-emitting paths.
A `DestinationRule` whose `status` is `Some(())` encodes that field to
`null` (unit serializes as null) and `null` decodes to `None`; and a
`VirtualService` whose route carries a non-finite `mirrorPercentage`
(serde_json writes non-finite floats as `null`) decodes back with the
percentage absent.  Neither difference is duration/percentage
canonicalization. -/
theorem C4_status_some_unit_breaks_round_trip :
    (decodeDestinationRule (encodeDestinationRule ⟨⟨none, none⟩, none, some ()⟩) =
      .ok ⟨⟨none, none⟩, none, none⟩ ∧
     (⟨⟨none, none⟩, none, none⟩ : DestinationRule) ≠ ⟨⟨none, none⟩, none, some ()⟩) ∧
    (F32.isFinite nanF32 = false ∧
     encodePercent ⟨nanF32⟩ = .null ∧
     decodeVirtualService (encodeVirtualService vsNanMirror) = .ok vsNanMirrorCollapsed ∧
     vsNanMirrorCollapsed ≠ vsNanMirror) := by
  refine ⟨⟨rfl, ?_⟩, rfl, rfl, rfl, ?_⟩
  · intro h
    simp [DestinationRule.mk.injEq] at h
  · intro h
    simp [vsNanMirrorCollapsed, vsNanMirror, VirtualService.mk.injEq,
      VirtualServiceSpec.mk.injEq, HttpRoute.mk.injEq] at h

/-- C4 amended: for each of the three resource kinds,
`decode (encode v) = v` holds (exactly, with no canonicalization needed)
for every value whose `status` is not `Some(())` and all of whose
floating-point (`Percent`) values are finite; a `Some(())` status and a
non-finite percentage both encode to `null` and decode back to absent. -/
theorem C4_round_trip_modulo_null_collapses :
    (∀ r : DestinationRule, r.status ≠ some () →
        decodeDestinationRule (encodeDestinationRule r) = .ok r) ∧
    (∀ r : Gateway, r.status ≠ some () →
        decodeGateway (encodeGateway r) = .ok r) ∧
    (∀ r : VirtualService, r.status ≠ some () → r.floatsFinite = true →
        decodeVirtualService (encodeVirtualService r) = .ok r) :=
  ⟨rt_DestinationRule, rt_Gateway, rt_VirtualService⟩

/-- C4 witness: the amended round trip evaluated on concrete resources. -/
theorem C4_round_trip_modulo_null_collapses_witness :
    decodeDestinationRule (encodeDestinationRule
      ⟨⟨some "bookinfo-ratings", none⟩,
       some ⟨"ratings.prod.svc.cluster.local",
             ⟨some (.Simple .LEAST_CONN ⟨none, none, none, none⟩), none, none, none, none⟩,
             none, none⟩,
       none⟩) =
      .ok ⟨⟨some "bookinfo-ratings", none⟩,
           some ⟨"ratings.prod.svc.cluster.local",
                 ⟨some (.Simple .LEAST_CONN ⟨none, none, none, none⟩), none, none, none, none⟩,
                 none, none⟩,
           none⟩ ∧
    decodeGateway (encodeGateway ⟨⟨some "gw", none⟩, none, none⟩) =
      .ok ⟨⟨some "gw", none⟩, none, none⟩ ∧
    decodeVirtualService (encodeVirtualService ⟨⟨some "vs", none⟩, none, none⟩) =
      .ok ⟨⟨some "vs", none⟩, none, none⟩ :=
  ⟨C4_round_trip_modulo_null_collapses.1 _ (by simp),
   C4_round_trip_modulo_null_collapses.2.1 _ (by simp),
   C4_round_trip_modulo_null_collapses.2.2 _ (by simp) (by rfl)⟩

/-- C5: encoding a `LoadBalancerSettings::ConsistentHash` whose payload
is the `UseSourceIp` variant and decoding the result always yields back
the `UseSourceIp` variant with the same payload — never `HttpCookie` or
`HttpHeaderName`. -/
theorem C5_use_source_ip_round_trip (usip : Option Bool) (mrs : Option Nat)
    (lls : LocalityLoadBalancerSetting) :
    decodeLoadBalancerSettings (encodeLoadBalancerSettings
      (.ConsistentHash (.UseSourceIp usip mrs) lls)) =
      .ok (.ConsistentHash (.UseSourceIp usip mrs) lls) :=
  rt_LoadBalancerSettings _

/-- A `ConsistentHashLB` wire object carrying both the `httpCookie` and
the `useSourceIp` keys. -/
def wireBothCookieAndSourceIp : Json :=
  .obj [("httpCookie", .obj [("name", .str "user")]), ("useSourceIp", .bool true)]

/-- C6 counterexample: decoding the two-key object fails, but NOT with
`AmbiguousVariant`: the decoder is externally tagged by Rust variant
names, reads the first key `httpCookie`, and rejects it as an unknown
variant. -/
theorem C6_not_ambiguous_variant :
    decodeConsistentHashLB wireBothCookieAndSourceIp ≠
      .error (.ambiguousVariant "ConsistentHashLB") := by
  simp [show decodeConsistentHashLB wireBothCookieAndSourceIp =
    .error (.unknownVariant "ConsistentHashLB" "httpCookie") from rfl]

/-- C6 amended: decoding a `ConsistentHashLB` object that carries both
`httpCookie` and `useSourceIp` keys fails, with an unknown-variant error
naming the first key — the derived decoder expects a single-key object
keyed by a Rust variant name (`HttpCookie`, `UseSourceIp`, ...), so the
field-keyed object is rejected before any ambiguity could be noticed. -/
theorem C6_both_keys_fail_unknown_variant :
    decodeConsistentHashLB wireBothCookieAndSourceIp =
      .error (.unknownVariant "ConsistentHashLB" "httpCookie") := by
  rfl

/-- C7: decoding `{"mode": "BOGUS"}` as `ClientTLSSettings` fails with
the unknown-variant error for `TLSmode` carrying the offending tag; tag
matching is exact and case-sensitive (lowercase `"simple"` is also
rejected), and an unknown tag is never mapped to a default variant. -/
theorem C7_unknown_enum_rejected :
    decodeClientTLSSettings (.obj [("mode", .str "BOGUS")]) =
      .error (.unknownVariant "TLSmode" "BOGUS") ∧
    decodeTLSmode (.str "BOGUS") = .error (.unknownVariant "TLSmode" "BOGUS") ∧
    decodeTLSmode (.str "simple") = .error (.unknownVariant "TLSmode" "simple") ∧
    decodeTLSmode (.str "SIMPLE") = .ok .SIMPLE ∧
    decodeTLSmode (.str "DISABLE") = .ok .DISABLE ∧
    decodeTLSmode (.str "MUTUAL") = .ok .MUTUAL ∧
    decodeTLSmode (.str "ISTIO_MUTUAL") = .ok .ISTIO_MUTUAL :=
  ⟨rfl, rfl, rfl, rfl, rfl, rfl, rfl⟩

/-- C8: the encoded top-level wire object of every resource contains
only `metadata`, `spec` and `status` — never `apiVersion` or `kind`
(those exist only as unserialized `Resource`-impl constants), and for
`Gateway` even `spec`/`status` disappear when absent (its struct carries
skip_serializing_none).  This contradicts the resources' own doc-comment
YAML examples and the Kubernetes wire conventions the claim states. -/
theorem C8_top_level_wire_keys :
    (∀ r : DestinationRule, (encodeDestinationRule r).keys = ["metadata", "spec", "status"]) ∧
    (∀ r : VirtualService, (encodeVirtualService r).keys = ["metadata", "spec", "status"]) ∧
    (∀ m sp, (encodeGateway ⟨m, some sp, some ()⟩).keys = ["metadata", "spec", "status"]) ∧
    (∀ m : ObjectMeta, (encodeGateway ⟨m, none, none⟩).keys = ["metadata"]) ∧
    ¬ "apiVersion" ∈ (encodeDestinationRule ⟨⟨none, none⟩, none, none⟩).keys ∧
    ¬ "kind" ∈ (encodeDestinationRule ⟨⟨none, none⟩, none, none⟩).keys ∧
    DestinationRule.API_VERSION = "networking.istio.io/v1beta1" ∧
    DestinationRule.KIND = "DestinationRule" ∧
    Gateway.API_VERSION = "networking.istio.io/v1beta1" ∧
    Gateway.KIND = "Gateway" ∧
    VirtualService.API_VERSION = "networking.istio.io/v1beta1" ∧
    VirtualService.KIND = "VirtualService" := by
  refine ⟨?_, ?_, ?_, ?_, by decide, by decide, rfl, rfl, rfl, rfl, rfl, rfl⟩
  · intro r; simp [encodeDestinationRule, Json.keys]
  · intro r; simp [encodeVirtualService, Json.keys]
  · intro m sp; simp [encodeGateway, Json.keys, skipField, encodeUnit]
  · intro m; simp [encodeGateway, Json.keys, skipField]

/-- C9: every optional field of every modeled structure is decoded
through `optField`, which maps a missing key and an explicit-null key to
the same absent value; the combinator law is stated universally and then
evaluated on both wire forms for `TrafficPolicy` and `TCPSettings` (the
structures the claim cites) and for `HttpRoute`. -/
theorem C9_missing_key_equals_explicit_null :
    (∀ (α : Type) (g : Json → Dec α) (k : String) (kvs : List (String × Json)),
        kvs.lookup k = none → optField kvs k g = .ok none) ∧
    (∀ (α : Type) (g : Json → Dec α) (k : String) (kvs : List (String × Json)),
        kvs.lookup k = some .null → optField kvs k g = .ok none) ∧
    decodeTrafficPolicy (.obj []) = .ok ⟨none, none, none, none, none⟩ ∧
    decodeTrafficPolicy (.obj [("loadBalancer", .null), ("connectionPool", .null),
      ("outlierDetection", .null), ("tls", .null), ("portLevelSettings", .null)]) =
      .ok ⟨none, none, none, none, none⟩ ∧
    decodeTCPSettings (.obj []) = .ok ⟨none, none, none⟩ ∧
    decodeTCPSettings (.obj [("maxConnections", .null), ("connectTimeout", .null),
      ("tcpKeepalive", .null)]) = .ok ⟨none, none, none⟩ ∧
    decodeHttpRoute (.obj []) =
      .ok ⟨none, none, none, none, none, none, none, none, none, none, none, none, none, none⟩ ∧
    decodeHttpRoute (.obj [("name", .null), ("match", .null), ("route", .null),
      ("redirect", .null), ("delegate", .null), ("rewrite", .null), ("timeout", .null),
      ("retries", .null), ("fault", .null), ("mirror", .null), ("mirrorPercentage", .null),
      ("corsPolicy", .null), ("headers", .null), ("mirrorPercent", .null)]) =
      .ok ⟨none, none, none, none, none, none, none, none, none, none, none, none, none, none⟩ ∧
    decodeClientTLSSettings (.obj [("mode", .str "SIMPLE")]) =
      .ok ⟨.SIMPLE, none, none, none, none, none, none, none⟩ ∧
    decodeClientTLSSettings (.obj [("mode", .str "SIMPLE"), ("clientCertificate", .null),
      ("privateKey", .null), ("caCertificates", .null), ("credentialName", .null),
      ("subjectAltNames", .null), ("sni", .null), ("insecureSkipVerify", .null)]) =
      .ok ⟨.SIMPLE, none, none, none, none, none, none, none⟩ := by
  refine ⟨?_, ?_, rfl, rfl, rfl, rfl, rfl, rfl, rfl, rfl⟩
  · intro α g k kvs h; simp [optField, h, decodeOptVal]
  · intro α g k kvs h; simp [optField, h, decodeOptVal]

/-- C9 witness: the combinator laws applied at a concrete key, decoder
and object. -/
theorem C9_missing_key_equals_explicit_null_witness :
    optField [] "bind" decodeString = .ok none ∧
    optField [("bind", .null)] "bind" decodeString = .ok none :=
  ⟨C9_missing_key_equals_explicit_null.1 String decodeString "bind" [] rfl,
   C9_missing_key_equals_explicit_null.2.1 String decodeString "bind" [("bind", .null)] rfl⟩

theorem except_bind_const_error_ne_ok {ε α β : Type} (e : Except ε α) (d : ε) (b : β) :
    (e >>= fun _ => (Except.error d : Except ε β)) ≠ .ok b := by
  cases e <;> simp

theorem except_bind_ne_ok {ε α β : Type} (e : Except ε α) (k : α → Except ε β)
    (hk : ∀ a (b : β), k a ≠ .ok b) (b : β) : e >>= k ≠ .ok b := by
  cases e with
  | error e' => simp
  | ok a => simpa using hk a b

/-- C10: `DestinationRuleSpec.traffic_policy`, `Subset.labels` and
`Subset.traffic_policy` are not wrapped in the optional container, so a
wire object lacking the corresponding key can never decode successfully
(whatever its other members hold), even though the source's comments
mark these fields "Required: No"; the concrete minimal objects show the
`missingField` errors. -/
theorem C10_missing_required_fields_fail :
    (∀ kvs : List (String × Json), kvs.lookup "trafficPolicy" = none →
        ∀ s : DestinationRuleSpec, decodeDestinationRuleSpec (.obj kvs) ≠ .ok s) ∧
    (∀ kvs : List (String × Json), kvs.lookup "labels" = none →
        ∀ s : Subset, decodeSubset (.obj kvs) ≠ .ok s) ∧
    (∀ kvs : List (String × Json), kvs.lookup "trafficPolicy" = none →
        ∀ s : Subset, decodeSubset (.obj kvs) ≠ .ok s) ∧
    decodeDestinationRuleSpec (.obj [("host", .str "h")]) =
      .error (.missingField "trafficPolicy") ∧
    decodeSubset (.obj [("name", .str "n")]) = .error (.missingField "labels") ∧
    decodeSubset (.obj [("name", .str "n"), ("labels", .obj [])]) =
      .error (.missingField "trafficPolicy") := by
  refine ⟨?_, ?_, ?_, rfl, rfl, rfl⟩
  · intro kvs hl s h
    simp only [decodeDestinationRuleSpec, reqField, decodeReqVal, hl, except_bind_error] at h
    exact except_bind_const_error_ne_ok _ _ _ h
  · intro kvs hl s h
    simp only [decodeSubset, reqField, decodeReqVal, hl, except_bind_error] at h
    exact except_bind_const_error_ne_ok _ _ _ h
  · intro kvs hl s h
    simp only [decodeSubset, reqField, decodeReqVal, hl, except_bind_error] at h
    refine except_bind_ne_ok _ _ (fun a b => ?_) s h
    exact except_bind_const_error_ne_ok _ _ _

/-- C10 witness: the universal parts applied to concrete wire objects
lacking the keys. -/
theorem C10_missing_required_fields_fail_witness :
    decodeDestinationRuleSpec (.obj [("host", .str "h")]) ≠
      .ok ⟨"h", ⟨none, none, none, none, none⟩, none, none⟩ ∧
    decodeSubset (.obj [("name", .str "n")]) ≠
      .ok ⟨"n", [], ⟨none, none, none, none, none⟩⟩ ∧
    decodeSubset (.obj [("name", .str "n"), ("labels", .obj [])]) ≠
      .ok ⟨"n", [], ⟨none, none, none, none, none⟩⟩ :=
  ⟨C10_missing_required_fields_fail.1 [("host", .str "h")] rfl _,
   C10_missing_required_fields_fail.2.1 [("name", .str "n")] rfl _,
   C10_missing_required_fields_fail.2.2.1 [("name", .str "n"), ("labels", .obj [])] rfl _⟩
